import Mathlib

/-!
Verification of the PokeClock LED-matrix clock (`clock_display.py`).

The Python source is shallowly embedded: wall-clock instants are rationals
(seconds of local time), Python floats become `ℚ`, Python `int()` (truncation
toward zero) becomes `pyInt`, the mutable frame canvas becomes a record with a
pixel function that is updated by an explicit write list, and the main loop
becomes a pure state-transition function `loopTick` on a `LoopState` record.
-/

/-- Python `int()` applied to a rational: truncation toward zero. -/
def pyInt (q : ℚ) : ℤ := if 0 ≤ q then ⌊q⌋ else ⌈q⌉

theorem pyInt_intCast (n : ℤ) : pyInt (n : ℚ) = n := by
  unfold pyInt
  split_ifs <;> simp

theorem pyInt_of_nonneg {q : ℚ} (h : 0 ≤ q) : pyInt q = ⌊q⌋ := by
  unfold pyInt
  exact if_pos h

/-- A color is a triple of integer channel values, as produced by
`interpolate_color` and consumed by `SetPixel`. -/
def Color : Type := ℤ × ℤ × ℤ

instance : DecidableEq Color := by unfold Color; infer_instance

-- Keyframe color constants from the CONFIGURATION section.
def DAY_SKY : Color := (135, 206, 235)
def HORIZON_ORANGE : Color := (255, 165, 79)
def NIGHT_SKY : Color := (25, 25, 60)
def NIGHT_BOTTOM : Color := (70, 130, 180)

/-- `interpolate_color(c1, c2, factor)`: per channel
`int(c1[i] + (c2[i] - c1[i]) * factor)`, the 3-element generator unrolled. -/
def interpolate_color (c1 c2 : Color) (factor : ℚ) : Color :=
  (pyInt ((c1.1 : ℚ) + ((c2.1 : ℚ) - (c1.1 : ℚ)) * factor),
   pyInt ((c1.2.1 : ℚ) + ((c2.2.1 : ℚ) - (c1.2.1 : ℚ)) * factor),
   pyInt ((c1.2.2 : ℚ) + ((c2.2.2 : ℚ) - (c1.2.2 : ℚ)) * factor))

-- Helper lemmas about one interpolated channel.

theorem affine_between {a b : ℤ} {f : ℚ} (hf0 : 0 ≤ f) (hf1 : f ≤ 1) :
    (min a b : ℚ) ≤ (a : ℚ) + ((b : ℚ) - a) * f ∧
      (a : ℚ) + ((b : ℚ) - a) * f ≤ (max a b : ℚ) := by
  rcases le_total a b with hab | hba
  · have hab' : (a : ℚ) ≤ b := by exact_mod_cast hab
    constructor
    · rw [min_eq_left hab']
      nlinarith
    · rw [max_eq_right hab']
      nlinarith
  · have hba' : (b : ℚ) ≤ a := by exact_mod_cast hba
    constructor
    · rw [min_eq_right hba']
      nlinarith
    · rw [max_eq_left hba']
      nlinarith

theorem pyInt_channel_between {a b : ℤ} {f : ℚ} (ha : 0 ≤ a) (hb : 0 ≤ b)
    (hf0 : 0 ≤ f) (hf1 : f ≤ 1) :
    min a b ≤ pyInt ((a : ℚ) + ((b : ℚ) - a) * f) ∧
      pyInt ((a : ℚ) + ((b : ℚ) - a) * f) ≤ max a b := by
  obtain ⟨hlo, hhi⟩ := affine_between (a := a) (b := b) hf0 hf1
  have hmin : (0 : ℤ) ≤ min a b := le_min ha hb
  have hv0 : (0 : ℚ) ≤ (a : ℚ) + ((b : ℚ) - a) * f := by
    refine le_trans ?_ hlo
    exact_mod_cast hmin
  rw [pyInt_of_nonneg hv0]
  constructor
  · exact Int.le_floor.mpr (by exact_mod_cast hlo)
  · have : (⌊(a : ℚ) + ((b : ℚ) - a) * f⌋ : ℚ) ≤ (max a b : ℚ) :=
      le_trans (Int.floor_le _) hhi
    exact_mod_cast this

theorem pyInt_channel_zero (a b : ℤ) : pyInt ((a : ℚ) + ((b : ℚ) - a) * 0) = a := by
  have h : (a : ℚ) + ((b : ℚ) - a) * 0 = (a : ℚ) := by ring
  rw [h, pyInt_intCast]

theorem pyInt_channel_one (a b : ℤ) : pyInt ((a : ℚ) + ((b : ℚ) - a) * 1) = b := by
  have h : (a : ℚ) + ((b : ℚ) - a) * 1 = (b : ℚ) := by ring
  rw [h, pyInt_intCast]

theorem pyInt_channel_mono {a b : ℤ} {f g : ℚ} (ha : 0 ≤ a) (hb : 0 ≤ b)
    (hab : a ≤ b) (hf0 : 0 ≤ f) (hfg : f ≤ g) :
    pyInt ((a : ℚ) + ((b : ℚ) - a) * f) ≤ pyInt ((a : ℚ) + ((b : ℚ) - a) * g) := by
  have hab' : (a : ℚ) ≤ b := by exact_mod_cast hab
  have ha' : (0 : ℚ) ≤ a := by exact_mod_cast ha
  have hg0 : 0 ≤ g := le_trans hf0 hfg
  have hvf : (0 : ℚ) ≤ (a : ℚ) + ((b : ℚ) - a) * f := by nlinarith
  have hvg : (0 : ℚ) ≤ (a : ℚ) + ((b : ℚ) - a) * g := by nlinarith
  rw [pyInt_of_nonneg hvf, pyInt_of_nonneg hvg]
  apply Int.floor_le_floor
  nlinarith

theorem pyInt_channel_anti {a b : ℤ} {f g : ℚ} (ha : 0 ≤ a) (hb : 0 ≤ b)
    (hba : b ≤ a) (hf0 : 0 ≤ f) (hg1 : g ≤ 1) (hfg : f ≤ g) :
    pyInt ((a : ℚ) + ((b : ℚ) - a) * g) ≤ pyInt ((a : ℚ) + ((b : ℚ) - a) * f) := by
  have hba' : (b : ℚ) ≤ a := by exact_mod_cast hba
  have hb' : (0 : ℚ) ≤ b := by exact_mod_cast hb
  have hg0 : 0 ≤ g := le_trans hf0 hfg
  have hf1 : f ≤ 1 := le_trans hfg hg1
  have hvf : (0 : ℚ) ≤ (a : ℚ) + ((b : ℚ) - a) * f := by nlinarith
  have hvg : (0 : ℚ) ≤ (a : ℚ) + ((b : ℚ) - a) * g := by nlinarith
  rw [pyInt_of_nonneg hvf, pyInt_of_nonneg hvg]
  apply Int.floor_le_floor
  nlinarith

theorem prod_eta_color (c : Color) : (c.1, c.2.1, c.2.2) = c := rfl

theorem interpolate_color_zero (c1 c2 : Color) : interpolate_color c1 c2 0 = c1 := by
  unfold interpolate_color
  rw [pyInt_channel_zero, pyInt_channel_zero, pyInt_channel_zero, prod_eta_color]

theorem interpolate_color_one (c1 c2 : Color) : interpolate_color c1 c2 1 = c2 := by
  unfold interpolate_color
  rw [pyInt_channel_one, pyInt_channel_one, pyInt_channel_one, prod_eta_color]


theorem interpolate_color_apply (c1 c2 : Color) (f : ℚ) :
    interpolate_color c1 c2 f =
      (pyInt ((c1.1 : ℚ) + ((c2.1 : ℚ) - (c1.1 : ℚ)) * f),
       pyInt ((c1.2.1 : ℚ) + ((c2.2.1 : ℚ) - (c1.2.1 : ℚ)) * f),
       pyInt ((c1.2.2 : ℚ) + ((c2.2.2 : ℚ) - (c1.2.2 : ℚ)) * f)) := rfl

/-! ## Canvas and pixel writes

The hardware frame canvas is modelled as a pixel function together with its
fixed dimensions.  An imperative loop of `canvas.SetPixel(x, y, r, g, b)`
calls is modelled as `paintList`: the fold of the single-pixel update over
the list of writes the loop issues, in loop order (last writer wins). -/

structure Canvas where
  width : ℕ
  height : ℕ
  pix : ℤ → ℤ → Color

def Canvas.SetPixel (c : Canvas) (x y : ℤ) (col : Color) : Canvas :=
  { c with pix := fun a b => if a = x ∧ b = y then col else c.pix a b }

/-- `canvas.Clear()`: every pixel back to black. -/
def Canvas.Clear (c : Canvas) : Canvas :=
  { c with pix := fun _ _ => (0, 0, 0) }

def paintList (c : Canvas) (ps : List (ℤ × ℤ × Color)) : Canvas :=
  ps.foldl (fun acc p => acc.SetPixel p.1 p.2.1 p.2.2) c

theorem paintList_nil (c : Canvas) : paintList c [] = c := rfl

theorem paintList_cons (c : Canvas) (p : ℤ × ℤ × Color) (ps : List (ℤ × ℤ × Color)) :
    paintList c (p :: ps) = paintList (c.SetPixel p.1 p.2.1 p.2.2) ps := rfl

theorem paintList_width (c : Canvas) (ps : List (ℤ × ℤ × Color)) :
    (paintList c ps).width = c.width := by
  induction ps generalizing c with
  | nil => rfl
  | cons p ps ih => rw [paintList_cons, ih]; rfl

theorem paintList_height (c : Canvas) (ps : List (ℤ × ℤ × Color)) :
    (paintList c ps).height = c.height := by
  induction ps generalizing c with
  | nil => rfl
  | cons p ps ih => rw [paintList_cons, ih]; rfl

theorem SetPixel_pix_of_ne (c : Canvas) (x y a b : ℤ) (col : Color)
    (h : ¬(a = x ∧ b = y)) : (c.SetPixel x y col).pix a b = c.pix a b := by
  unfold Canvas.SetPixel
  simp only [if_neg h]

theorem SetPixel_pix_self (c : Canvas) (x y : ℤ) (col : Color) :
    (c.SetPixel x y col).pix x y = col := by
  unfold Canvas.SetPixel
  simp

/-- A pixel no write in the list targets keeps its previous color. -/
theorem paintList_pix_of_not_hit (ps : List (ℤ × ℤ × Color)) (c : Canvas) (a b : ℤ)
    (h : ∀ p ∈ ps, ¬(p.1 = a ∧ p.2.1 = b)) :
    (paintList c ps).pix a b = c.pix a b := by
  induction ps generalizing c with
  | nil => rfl
  | cons p ps ih =>
    rw [paintList_cons, ih _ (fun q hq => h q (List.mem_cons_of_mem p hq))]
    apply SetPixel_pix_of_ne
    intro hab
    exact h p (List.mem_cons_self p ps) ⟨hab.1.symm, hab.2.symm⟩

/-- Contrapositive form: a pixel that changed was the target of some write. -/
theorem paintList_pix_changed (ps : List (ℤ × ℤ × Color)) (c : Canvas) (a b : ℤ)
    (h : (paintList c ps).pix a b ≠ c.pix a b) :
    ∃ p ∈ ps, p.1 = a ∧ p.2.1 = b := by
  by_contra hcon
  exact h (paintList_pix_of_not_hit ps c a b (fun p hp hab => hcon ⟨p, hp, hab⟩))

/-- If every write in the list targets (a, b) with the same color and there is
at least one write, the pixel ends up with that color. -/
theorem paintList_pix_of_all_hit_or_miss (ps : List (ℤ × ℤ × Color)) (c : Canvas)
    (a b : ℤ) (col : Color)
    (h : ∀ p ∈ ps, p.1 = a ∧ p.2.1 = b → p.2.2 = col)
    (hmem : ∃ p ∈ ps, p.1 = a ∧ p.2.1 = b) :
    (paintList c ps).pix a b = col := by
  induction ps generalizing c with
  | nil => obtain ⟨p, hp, _⟩ := hmem; exact absurd hp (List.not_mem_nil p)
  | cons p ps ih =>
    rw [paintList_cons]
    by_cases hrest : ∃ q ∈ ps, q.1 = a ∧ q.2.1 = b
    · exact ih _ (fun q hq => h q (List.mem_cons_of_mem p hq)) hrest
    · have hmiss : ∀ q ∈ ps, ¬(q.1 = a ∧ q.2.1 = b) := fun q hq hqab => hrest ⟨q, hq, hqab⟩
      obtain ⟨q, hq, hqa⟩ := hmem
      rcases List.mem_cons.mp hq with hqp | hqps
      · subst hqp
        rw [paintList_pix_of_not_hit ps _ a b hmiss]
        rw [← hqa.1, ← hqa.2, SetPixel_pix_self]
        exact h q (List.mem_cons_self q ps) hqa
      · exact absurd hqa (hmiss q hqps)

/-! ## Sprite compositor (`draw_image_on_canvas`) -/

/-- Decoded image: dimensions, whether the mode is RGBA, and the pixel
accessor `pixels[x, y]` giving `(r, g, b, a)` (non-alpha images carry an
unused fourth component). -/
structure Image where
  width : ℕ
  height : ℕ
  hasAlpha : Bool
  px : ℤ → ℤ → ℕ × ℕ × ℕ × ℕ

/-- `range(a, b)` over integers, in increasing order. -/
def intRange (a b : ℤ) : List ℤ := (List.range (b - a).toNat).map (fun i : ℕ => a + (i : ℤ))

theorem mem_intRange {a b x : ℤ} : x ∈ intRange a b ↔ a ≤ x ∧ x < b := by
  unfold intRange
  simp only [List.mem_map, List.mem_range]
  constructor
  · rintro ⟨i, hi, rfl⟩
    omega
  · rintro ⟨h1, h2⟩
    exact ⟨(x - a).toNat, by omega, by omega⟩

/-- The sequence of `SetPixel` writes the nested pixel loop issues, in loop
order: clipped row range outside, clipped column range inside, near-transparent
RGBA pixels skipped. -/
def spriteWrites (c : Canvas) (image : Image) (x_offset y_offset : ℤ) :
    List (ℤ × ℤ × Color) :=
  let x_start : ℤ := max 0 (-x_offset)
  let x_end : ℤ := min (image.width : ℤ) ((c.width : ℤ) - x_offset)
  let y_start : ℤ := max 0 (-y_offset)
  let y_end : ℤ := min (image.height : ℤ) ((c.height : ℤ) - y_offset)
  (intRange y_start y_end).flatMap (fun y =>
    (intRange x_start x_end).filterMap (fun x =>
      let q := image.px x y
      if image.hasAlpha = true ∧ q.2.2.2 < 10 then none
      else some (x + x_offset, y + y_offset, ((q.1 : ℤ), (q.2.1 : ℤ), (q.2.2.1 : ℤ)))))

/-- `draw_image_on_canvas(canvas, image, x_offset, y_offset)`; `None` images
are a no-op. -/
def draw_image_on_canvas (c : Canvas) (image : Option Image)
    (x_offset y_offset : ℤ) : Canvas :=
  match image with
  | none => c
  | some img => paintList c (spriteWrites c img x_offset y_offset)

theorem spriteWrites_mem_elim {c : Canvas} {img : Image} {xo yo : ℤ}
    {p : ℤ × ℤ × Color} (hp : p ∈ spriteWrites c img xo yo) :
    ∃ x y : ℤ,
      max 0 (-xo) ≤ x ∧ x < min (img.width : ℤ) ((c.width : ℤ) - xo) ∧
      max 0 (-yo) ≤ y ∧ y < min (img.height : ℤ) ((c.height : ℤ) - yo) ∧
      p.1 = x + xo ∧ p.2.1 = y + yo ∧
      ¬(img.hasAlpha = true ∧ (img.px x y).2.2.2 < 10) := by
  unfold spriteWrites at hp
  simp only [List.mem_flatMap, List.mem_filterMap] at hp
  obtain ⟨y, hy, x, hx, heq⟩ := hp
  rw [mem_intRange] at hy hx
  refine ⟨x, y, hx.1, hx.2, hy.1, hy.2, ?_⟩
  by_cases hc : img.hasAlpha = true ∧ (img.px x y).2.2.2 < 10
  · rw [if_pos hc] at heq
    exact absurd heq (by simp)
  · rw [if_neg hc] at heq
    rw [Option.some_inj] at heq
    rw [← heq]
    exact ⟨rfl, rfl, hc⟩

/-! ## Sky renderer (`draw_sky_gradient`) -/

/-- The color computed for row `y` in the first pass of `draw_sky_gradient`:
vertical factor `y / max(1, height - 1)` and the three day-progress regimes. -/
def skyRowColor (factor_day : ℚ) (height : ℕ) (y : ℕ) : Color :=
  let vertical_factor : ℚ := (y : ℚ) / ((max 1 (height - 1) : ℕ) : ℚ)
  if 0 < factor_day ∧ factor_day < 1 then
    let top_color := interpolate_color NIGHT_SKY DAY_SKY factor_day
    let bottom_color := interpolate_color NIGHT_BOTTOM HORIZON_ORANGE factor_day
    interpolate_color top_color bottom_color vertical_factor
  else if 1 ≤ factor_day then
    interpolate_color DAY_SKY HORIZON_ORANGE vertical_factor
  else
    interpolate_color NIGHT_SKY NIGHT_BOTTOM vertical_factor

/-- `draw_sky_gradient(canvas, factor_day)`: first pass builds `row_colors`,
second pass paints every pixel of each row with its row color. -/
def draw_sky_gradient (c : Canvas) (factor_day : ℚ) : Canvas :=
  let height := c.height
  let width := c.width
  let row_colors := (List.range height).map (fun y => skyRowColor factor_day height y)
  paintList c ((List.range height).flatMap (fun y : ℕ =>
    (List.range width).map (fun x : ℕ => ((x : ℤ), (y : ℤ), row_colors.getD y (0, 0, 0)))))

theorem rowColors_getD (f : ℚ) (h y : ℕ) (hy : y < h) (d : Color) :
    ((List.range h).map (fun z => skyRowColor f h z)).getD y d = skyRowColor f h y := by
  rw [List.getD_eq_getElem?_getD, List.getElem?_map, List.getElem?_range hy]
  rfl

/-- Every pixel inside the canvas ends up with its row color. -/
theorem draw_sky_gradient_pix (c : Canvas) (f : ℚ) {a b : ℤ}
    (ha0 : 0 ≤ a) (ha : a < (c.width : ℤ)) (hb0 : 0 ≤ b) (hb : b < (c.height : ℤ)) :
    (draw_sky_gradient c f).pix a b = skyRowColor f c.height b.toNat := by
  unfold draw_sky_gradient
  apply paintList_pix_of_all_hit_or_miss
  · intro p hp hpab
    simp only [List.mem_flatMap, List.mem_map, List.mem_range] at hp
    obtain ⟨y, hy, x, hx, rfl⟩ := hp
    have h2 : (y : ℤ) = b := hpab.2
    show ((List.range c.height).map (fun z => skyRowColor f c.height z)).getD y (0, 0, 0) =
      skyRowColor f c.height b.toNat
    have hyb : y = b.toNat := by omega
    subst hyb
    exact rowColors_getD f c.height b.toNat (by omega) (0, 0, 0)
  · refine ⟨((a.toNat : ℤ), (b.toNat : ℤ),
      ((List.range c.height).map (fun y => skyRowColor f c.height y)).getD b.toNat (0, 0, 0)),
      ?_, ?_, ?_⟩
    · simp only [List.mem_flatMap, List.mem_map, List.mem_range]
      exact ⟨b.toNat, by omega, a.toNat, by omega, rfl⟩
    · show (a.toNat : ℤ) = a
      omega
    · show (b.toNat : ℤ) = b
      omega

theorem draw_sky_gradient_pix_outside (c : Canvas) (f : ℚ) {a b : ℤ}
    (h : ¬(0 ≤ a ∧ a < (c.width : ℤ) ∧ 0 ≤ b ∧ b < (c.height : ℤ))) :
    (draw_sky_gradient c f).pix a b = c.pix a b := by
  unfold draw_sky_gradient
  apply paintList_pix_of_not_hit
  intro p hp hpab
  simp only [List.mem_flatMap, List.mem_map, List.mem_range] at hp
  obtain ⟨y, hy, x, hx, rfl⟩ := hp
  have h1 : (x : ℤ) = a := hpab.1
  have h2 : (y : ℤ) = b := hpab.2
  exact h (by omega)

/-! ## Celestial progress calculator and vertical placement -/

/-- `calculate_vertical_position(image_height, canvas_height, progress)`:
clamp progress to `[0, 1]` and interpolate the sprite top from the bottom of
the canvas (progress 0) to the top (progress 1), truncated by `int()`. -/
def calculate_vertical_position (image_height : Option ℤ) (canvas_height : ℤ)
    (progress : ℚ) : ℤ :=
  match image_height with
  | none => 0
  | some ih =>
    let p := max 0 (min 1 progress)
    let start_top : ℚ := ((canvas_height - ih : ℤ) : ℚ)
    let end_top : ℚ := 0
    pyInt (start_top + (end_top - start_top) * p)

/-- The sun-progress ramp of the main loop (lines computing `sun_progress`),
with the two 30-minute transition windows hard-coded as 1800 seconds. -/
def sun_progress (now sunrise_today sunset_today : ℚ) : ℚ :=
  let sunrise_transition_end := sunrise_today + 1800
  let sunset_transition_end := sunset_today + 1800
  if sunrise_today ≤ now ∧ now ≤ sunrise_transition_end then
    (now - sunrise_today) / 1800
  else if sunrise_transition_end < now ∧ now < sunset_today then
    1
  else if sunset_today ≤ now ∧ now ≤ sunset_transition_end then
    1 - (now - sunset_today) / 1800
  else
    0

/-- The moon window anchors of the main loop: before sunrise they hang off
yesterday's sunset and today's sunrise, otherwise off today's sunset and
tomorrow's sunrise.  Returns
`(moon_rise_start, moon_rise_end, moon_set_start, moon_set_end)`. -/
def moonWindows (now sunrise_today sunset_today sunset_yesterday sunrise_tomorrow : ℚ) :
    ℚ × ℚ × ℚ × ℚ :=
  if now < sunrise_today then
    (sunset_yesterday + 1800, sunset_yesterday + 3600, sunrise_today - 1800, sunrise_today)
  else
    (sunset_today + 1800, sunset_today + 3600, sunrise_tomorrow - 1800, sunrise_tomorrow)

/-- The moon-progress ramp of the main loop over the four window anchors. -/
def moon_progress (now moon_rise_start moon_rise_end moon_set_start moon_set_end : ℚ) : ℚ :=
  if moon_rise_start ≤ now ∧ now ≤ moon_rise_end then
    (now - moon_rise_start) / 1800
  else if moon_rise_end < now ∧ now < moon_set_start then
    1
  else if moon_set_start ≤ now ∧ now ≤ moon_set_end then
    1 - (now - moon_set_start) / 1800
  else
    0

/-! ## Wall-clock helpers and the astronomical lookup with fallback

Instants are rationals counting seconds of local time; day `d` spans
`[86400*d, 86400*(d+1))`. -/

/-- `now.date()` as a day index. -/
def dateOf (now : ℚ) : ℤ := ⌊now / 86400⌋

/-- `now.minute`. -/
def minuteOf (now : ℚ) : ℤ := ⌊now / 60⌋ % 60

/-- `now.replace(hour=h, minute=0, second=0, microsecond=0)` expressed by the
second-of-day `s`: same date, time-of-day `s`. -/
def replaceTime (now : ℚ) (s : ℚ) : ℚ := ((dateOf now : ℤ) : ℚ) * 86400 + s

/-- The try/except block computing the four sun instants.  `lookup` is the
external `astral.sun.sun` collaborator, giving `(sunrise, sunset)` for a day
index or failing; if any of the three calls (today, yesterday, tomorrow)
raises, all four values fall back to the fixed 06:00/18:00 local times.
Returns `(sunrise_today, sunset_today, sunset_yesterday, sunrise_tomorrow)`. -/
def sunTimes (lookup : ℤ → Option (ℚ × ℚ)) (now : ℚ) : ℚ × ℚ × ℚ × ℚ :=
  match lookup (dateOf now), lookup (dateOf (now - 86400)), lookup (dateOf (now + 86400)) with
  | some s_today, some s_yesterday, some s_tomorrow =>
      (s_today.1, s_today.2, s_yesterday.2, s_tomorrow.1)
  | _, _, _ =>
      (replaceTime now 21600, replaceTime now 64800,
       replaceTime (now - 86400) 64800, replaceTime (now + 86400) 21600)

/-- A lookup that always answers with the fixed fallback times. -/
def fallbackLookup : ℤ → Option (ℚ × ℚ) :=
  fun d => some (((d : ℚ)) * 86400 + 21600, ((d : ℚ)) * 86400 + 64800)

/-! ## Animation classes -/

/-- `HorizontalAnimation`: sliding sprite loop.  `width`/`height` are the
first frame's dimensions, captured at construction. -/
structure HorizontalAnimation where
  frames : List Image
  direction : String
  duration : ℚ
  fps : ℚ
  y_offset : ℤ
  start_time : Option ℚ
  active : Bool
  width : ℤ
  height : ℤ

def HorizontalAnimation.init (frames : List Image) (direction : String)
    (duration fps : ℚ) (y_offset : ℤ) : HorizontalAnimation :=
  { frames := frames, direction := direction, duration := duration, fps := fps,
    y_offset := y_offset, start_time := none, active := false,
    width := match frames with | [] => 0 | f :: _ => (f.width : ℤ),
    height := match frames with | [] => 0 | f :: _ => (f.height : ℤ) }

/-- `start()` at wall-clock time `t` (`time.time()`): no-op on an empty
frame list. -/
def HorizontalAnimation.start (a : HorizontalAnimation) (t : ℚ) : HorizontalAnimation :=
  if a.frames.isEmpty then a else { a with start_time := some t, active := true }

/-- `update_and_draw(canvas)` at wall-clock time `t`.  Returns the drawn flag
together with the updated object state and canvas. -/
def HorizontalAnimation.update_and_draw (a : HorizontalAnimation) (t : ℚ)
    (canvas : Canvas) : Bool × HorizontalAnimation × Canvas :=
  match a.start_time with
  | none => (false, a, canvas)
  | some ts =>
    if a.active = false ∨ a.frames.isEmpty then (false, a, canvas)
    else
      let elapsed := t - ts
      if elapsed > a.duration then (false, { a with active := false }, canvas)
      else
        let progress := elapsed / a.duration
        let start_x : ℤ := if a.direction = "left" then (canvas.width : ℤ) else -a.width
        let end_x : ℤ := if a.direction = "left" then -a.width else (canvas.width : ℤ)
        let x_pos := pyInt ((start_x : ℚ) + ((end_x : ℚ) - (start_x : ℚ)) * progress)
        let frame_idx := pyInt (elapsed * a.fps) % (a.frames.length : ℤ)
        let y_pos := a.y_offset
        (true, a, draw_image_on_canvas canvas a.frames[frame_idx.toNat]? x_pos y_pos)

/-- `HaunterAnimation`: slide in from the right, hold, slide back out. -/
structure HaunterAnimation where
  frames : List Image
  slide_duration : ℚ
  hold_duration : ℚ
  total_duration : ℚ
  fps : ℚ
  start_time : Option ℚ
  active : Bool
  width : ℤ
  height : ℤ

def HaunterAnimation.init (frames : List Image)
    (slide_duration hold_duration fps : ℚ) : HaunterAnimation :=
  { frames := frames, slide_duration := slide_duration, hold_duration := hold_duration,
    total_duration := slide_duration * 2 + hold_duration, fps := fps,
    start_time := none, active := false,
    width := match frames with | [] => 0 | f :: _ => (f.width : ℤ),
    height := match frames with | [] => 0 | f :: _ => (f.height : ℤ) }

def HaunterAnimation.start (a : HaunterAnimation) (t : ℚ) : HaunterAnimation :=
  if a.frames.isEmpty then a else { a with start_time := some t, active := true }

def HaunterAnimation.update_and_draw (a : HaunterAnimation) (t : ℚ)
    (canvas : Canvas) : Bool × HaunterAnimation × Canvas :=
  match a.start_time with
  | none => (false, a, canvas)
  | some ts =>
    if a.active = false ∨ a.frames.isEmpty then (false, a, canvas)
    else
      let elapsed := t - ts
      if elapsed > a.total_duration then (false, { a with active := false }, canvas)
      else
        let x_pos : ℤ :=
          if elapsed < a.slide_duration then
            let progress := elapsed / a.slide_duration
            let start_x : ℚ := (canvas.width : ℚ)
            let end_x : ℚ := (canvas.width : ℚ) - (a.width : ℚ)
            pyInt (start_x + (end_x - start_x) * progress)
          else if elapsed < a.slide_duration + a.hold_duration then
            (canvas.width : ℤ) - a.width
          else
            let slide_out_elapsed := elapsed - a.slide_duration - a.hold_duration
            let progress := slide_out_elapsed / a.slide_duration
            let start_x : ℚ := (canvas.width : ℚ) - (a.width : ℚ)
            let end_x : ℚ := (canvas.width : ℚ)
            pyInt (start_x + (end_x - start_x) * progress)
        let frame_idx := pyInt (elapsed * a.fps) % (a.frames.length : ℤ)
        let y_pos := Int.fdiv ((canvas.height : ℤ) - a.height) 2
        (true, a, draw_image_on_canvas canvas a.frames[frame_idx.toNat]? x_pos y_pos)

/-! ## The frame loop -/

-- Cloud configuration constants.
def CLOUDY : Bool := true
def CLOUD_DRIFT_RANGE : ℚ := 5
def CLOUD_DRIFT_SPEED : ℚ := 1/4

/-- The optional still images loaded at startup (absent files load as none). -/
structure Config where
  sun_img : Option Image
  moon_img : Option Image
  trees_img : Option Image
  rocks_img : Option Image
  clouds_img : Option Image

/-- The mutable state the loop body reads and writes across ticks. -/
structure LoopState where
  prev_minute : Option ℤ
  hooh_anim : HorizontalAnimation
  lugia_anim : HorizontalAnimation
  trainer_anim : HorizontalAnimation
  ray_anim : HorizontalAnimation
  haunter_anim : HaunterAnimation
  cloud_offset : ℚ
  cloud_drift_direction : ℤ

/-- The minute-rollover block of the loop body: record the first minute seen;
on a change, update the record and, only when ho-oh is not active, restart
ho-oh and null the other start times. -/
def minuteRollover (st : LoopState) (now : ℚ) : LoopState :=
  let current_minute := minuteOf now
  match st.prev_minute with
  | none => { st with prev_minute := some current_minute }
  | some pm =>
    if current_minute ≠ pm then
      let st1 := { st with prev_minute := some current_minute }
      if st1.hooh_anim.active = false then
        { st1 with
          hooh_anim := st1.hooh_anim.start now,
          lugia_anim := { st1.lugia_anim with start_time := none },
          trainer_anim := { st1.trainer_anim with start_time := none },
          ray_anim := { st1.ray_anim with start_time := none },
          haunter_anim := { st1.haunter_anim with start_time := none } }
      else st1
    else st

/-- One iteration of the `while True` loop, from reading the clock to the
buffer swap and cloud-drift update.  Timing (`frame_start`, the end-of-tick
sleep) and `draw_time_text` (which delegates to the external font renderer)
have no effect on the modelled state.  The buffer swap hands back a writable
canvas, modelled as the identity on the canvas value. -/
def loopTick (cfg : Config) (lookup : ℤ → Option (ℚ × ℚ)) (st : LoopState)
    (canvas : Canvas) (now : ℚ) : LoopState × Canvas :=
  let s4 := sunTimes lookup now
  let sunrise_today := s4.1
  let sunset_today := s4.2.1
  let sunset_yesterday := s4.2.2.1
  let sunrise_tomorrow := s4.2.2.2
  let w := moonWindows now sunrise_today sunset_today sunset_yesterday sunrise_tomorrow
  let sun_prog := sun_progress now sunrise_today sunset_today
  let moon_prog := moon_progress now w.1 w.2.1 w.2.2.1 w.2.2.2
  let canvas := canvas.Clear
  let canvas := draw_sky_gradient canvas sun_prog
  let canvas :=
    match cfg.sun_img with
    | some si =>
      if sun_prog > 0 then
        let sun_y := calculate_vertical_position (some (si.height : ℤ)) (canvas.height : ℤ) sun_prog
        let sun_x := Int.fdiv ((canvas.width : ℤ) - (si.width : ℤ)) 2
        draw_image_on_canvas canvas (some si) sun_x sun_y
      else canvas
    | none => canvas
  let canvas :=
    match cfg.moon_img with
    | some mi =>
      if moon_prog > 0 then
        let moon_y := calculate_vertical_position (some (mi.height : ℤ)) (canvas.height : ℤ) moon_prog
        let moon_x := Int.fdiv ((canvas.width : ℤ) - (mi.width : ℤ)) 2
        draw_image_on_canvas canvas (some mi) moon_x moon_y
      else canvas
    | none => canvas
  let canvas :=
    if sun_prog > 0 then draw_image_on_canvas canvas cfg.trees_img 0 0
    else draw_image_on_canvas canvas cfg.rocks_img 0 0
  let canvas :=
    if CLOUDY = true ∧ cfg.clouds_img.isSome ∧ sun_prog > 0 then
      draw_image_on_canvas canvas cfg.clouds_img (pyInt st.cloud_offset) 0
    else canvas
  let st1 := minuteRollover st now
  let r1 := st1.hooh_anim.update_and_draw now canvas
  let hooh_active := r1.1
  let hooh1 := r1.2.1
  let canvas := r1.2.2
  let lugia0 :=
    if hooh_active = false ∧ st1.lugia_anim.active = false ∧
        st1.lugia_anim.start_time = none ∧ hooh1.start_time ≠ none then
      st1.lugia_anim.start now
    else st1.lugia_anim
  let r2 := lugia0.update_and_draw now canvas
  let lugia_active := r2.1
  let lugia1 := r2.2.1
  let canvas := r2.2.2
  let trainer0 :=
    if lugia_active = false ∧ st1.trainer_anim.active = false ∧
        st1.trainer_anim.start_time = none ∧ lugia1.start_time ≠ none then
      st1.trainer_anim.start now
    else st1.trainer_anim
  let r3 := trainer0.update_and_draw now canvas
  let trainer_active := r3.1
  let trainer1 := r3.2.1
  let canvas := r3.2.2
  let ray0 :=
    if trainer_active = false ∧ st1.ray_anim.active = false ∧
        st1.ray_anim.start_time = none ∧ trainer1.start_time ≠ none then
      st1.ray_anim.start now
    else st1.ray_anim
  let r4 := ray0.update_and_draw now canvas
  let ray1 := r4.2.1
  let canvas := r4.2.2
  let hpair :=
    if moon_prog > 0 then
      let h0 :=
        if st1.haunter_anim.active = false ∧ st1.haunter_anim.start_time = none then
          st1.haunter_anim.start now
        else st1.haunter_anim
      let r5 := h0.update_and_draw now canvas
      (r5.2.1, r5.2.2)
    else (st1.haunter_anim, canvas)
  let cloudPair :=
    if CLOUDY = true ∧ cfg.clouds_img.isSome ∧ sun_prog > 0 then
      let co := st.cloud_offset + CLOUD_DRIFT_SPEED * (st.cloud_drift_direction : ℚ)
      let dir :=
        if co ≥ CLOUD_DRIFT_RANGE then (-1 : ℤ)
        else if co ≤ -CLOUD_DRIFT_RANGE then (1 : ℤ)
        else st.cloud_drift_direction
      (co, dir)
    else (st.cloud_offset, st.cloud_drift_direction)
  ({ prev_minute := st1.prev_minute, hooh_anim := hooh1, lugia_anim := lugia1,
     trainer_anim := trainer1, ray_anim := ray1, haunter_anim := hpair.1,
     cloud_offset := cloudPair.1, cloud_drift_direction := cloudPair.2 }, hpair.2)

/-- The state `main` builds before entering the loop: fresh animation objects
with the configured parameters, then `hooh_anim.start()` at time `t0`. -/
def mkInitState (hooh_frames lugia_frames trainer_frames ray_frames haunter_frames :
    List Image) (t0 : ℚ) : LoopState :=
  { prev_minute := none,
    hooh_anim := (HorizontalAnimation.init hooh_frames ("left") 5 6 1).start t0,
    lugia_anim := HorizontalAnimation.init lugia_frames ("left") 5 6 17,
    trainer_anim := HorizontalAnimation.init trainer_frames ("right") 7 6 18,
    ray_anim := HorizontalAnimation.init ray_frames ("left") 7 6 0,
    haunter_anim := HaunterAnimation.init haunter_frames 2 3 8,
    cloud_offset := 0,
    cloud_drift_direction := 1 }

/-- Iterating the loop over a list of tick instants. -/
def runTicks (cfg : Config) (lookup : ℤ → Option (ℚ × ℚ))
    (sc : LoopState × Canvas) (ts : List ℚ) : LoopState × Canvas :=
  ts.foldl (fun sc t => loopTick cfg lookup sc.1 sc.2 t) sc

/-! ## Test fixtures for concrete evaluations -/

/-- A 3x3 RGBA image whose pixels are fully transparent. -/
def testImg : Image := { width := 3, height := 3, hasAlpha := true, px := fun _ _ => (0, 0, 0, 0) }

/-- A 1x1 opaque RGBA image with a recognizable color. -/
def markImg : Image := { width := 1, height := 1, hasAlpha := true, px := fun _ _ => (200, 10, 20, 255) }

/-- The configured 64x32 matrix canvas, initially black. -/
def testCanvas : Canvas := { width := 64, height := 32, pix := fun _ _ => (0, 0, 0) }

/-- A configuration with every optional still image absent. -/
def testCfg : Config :=
  { sun_img := none, moon_img := none, trees_img := none, rocks_img := none, clouds_img := none }

/-- A lookup that always fails (the astronomical source always raising). -/
def noLookup : ℤ → Option (ℚ × ℚ) := fun _ => none

/-! ## Claim C6 -/

/-- C6: for every pair of colors with 8-bit channels, `interpolate_color`
computes per channel `c1[i] + (c2[i] - c1[i]) * f` truncated to integer; for
every `f` in `[0, 1]` each channel of the result lies between `c1[i]` and
`c2[i]` inclusive, and `interpolate_color c1 c2 0 = c1` and
`interpolate_color c1 c2 1 = c2` exactly. -/
theorem C6_interpolate_between_endpoints (c1 c2 : Color) (f : ℚ)
    (h1 : 0 ≤ c1.1 ∧ c1.1 ≤ 255) (h2 : 0 ≤ c1.2.1 ∧ c1.2.1 ≤ 255)
    (h3 : 0 ≤ c1.2.2 ∧ c1.2.2 ≤ 255)
    (h4 : 0 ≤ c2.1 ∧ c2.1 ≤ 255) (h5 : 0 ≤ c2.2.1 ∧ c2.2.1 ≤ 255)
    (h6 : 0 ≤ c2.2.2 ∧ c2.2.2 ≤ 255)
    (hf0 : 0 ≤ f) (hf1 : f ≤ 1) :
    interpolate_color c1 c2 f =
      (pyInt ((c1.1 : ℚ) + ((c2.1 : ℚ) - (c1.1 : ℚ)) * f),
       pyInt ((c1.2.1 : ℚ) + ((c2.2.1 : ℚ) - (c1.2.1 : ℚ)) * f),
       pyInt ((c1.2.2 : ℚ) + ((c2.2.2 : ℚ) - (c1.2.2 : ℚ)) * f)) ∧
    (min c1.1 c2.1 ≤ (interpolate_color c1 c2 f).1 ∧
       (interpolate_color c1 c2 f).1 ≤ max c1.1 c2.1) ∧
    (min c1.2.1 c2.2.1 ≤ (interpolate_color c1 c2 f).2.1 ∧
       (interpolate_color c1 c2 f).2.1 ≤ max c1.2.1 c2.2.1) ∧
    (min c1.2.2 c2.2.2 ≤ (interpolate_color c1 c2 f).2.2 ∧
       (interpolate_color c1 c2 f).2.2 ≤ max c1.2.2 c2.2.2) ∧
    interpolate_color c1 c2 0 = c1 ∧ interpolate_color c1 c2 1 = c2 := by
  refine ⟨rfl, ?_, ?_, ?_, interpolate_color_zero c1 c2, interpolate_color_one c1 c2⟩
  · exact pyInt_channel_between h1.1 h4.1 hf0 hf1
  · exact pyInt_channel_between h2.1 h5.1 hf0 hf1
  · exact pyInt_channel_between h3.1 h6.1 hf0 hf1

/-- Witness for C6 at `c1 = DAY_SKY`, `c2 = HORIZON_ORANGE`, `f = 1/2`. -/
theorem C6_witness :
    min DAY_SKY.1 HORIZON_ORANGE.1 ≤ (interpolate_color DAY_SKY HORIZON_ORANGE (1/2)).1 ∧
      (interpolate_color DAY_SKY HORIZON_ORANGE (1/2)).1 ≤ max DAY_SKY.1 HORIZON_ORANGE.1 :=
  (C6_interpolate_between_endpoints DAY_SKY HORIZON_ORANGE (1/2)
    (by decide) (by decide) (by decide) (by decide) (by decide) (by decide)
    (by norm_num) (by norm_num)).2.1

/-! ## Claim C1 -/

/-- C1 counterexample: with `sunrise = 0 < sunset = 900` (a day shorter than
the 30-minute window) and `now = 900`, `now` lies in `[sunset, sunset + W]`,
yet the code computes the rising-branch value `1/2`, not the claimed setting
value `1 - seconds_since(sunset)/1800 = 1`. -/
theorem C1_counterexample :
    (0 : ℚ) < 900 ∧ ((900 : ℚ) ≤ 900 ∧ (900 : ℚ) ≤ 900 + 1800) ∧
      sun_progress 900 0 900 = 1/2 ∧
      sun_progress 900 0 900 ≠ 1 - ((900 : ℚ) - 900) / 1800 := by
  refine ⟨by norm_num, ⟨le_refl _, by norm_num⟩, by norm_num [sun_progress], by norm_num [sun_progress]⟩

/-- C1 (amended): provided additionally that `sunrise + W ≤ sunset` (the day
is at least as long as the 30-minute window, so the rising and setting windows
do not overlap), the sun-progress computation is the claimed piecewise linear
ramp, and the four concrete examples evaluate as the spec states
(`06:15 ↦ 1/2`, `12:00 ↦ 1`, `18:10 ↦ 2/3`, `02:00 ↦ 0` with sunrise 06:00,
sunset 18:00). -/
theorem C1_sun_progress_ramp (now sunrise sunset : ℚ)
    (hlt : sunrise < sunset) (hsep : sunrise + 1800 ≤ sunset) :
    ((sunrise ≤ now ∧ now ≤ sunrise + 1800 →
        sun_progress now sunrise sunset = (now - sunrise) / 1800) ∧
     (sunrise + 1800 < now ∧ now < sunset → sun_progress now sunrise sunset = 1) ∧
     (sunset ≤ now ∧ now ≤ sunset + 1800 →
        sun_progress now sunrise sunset = 1 - (now - sunset) / 1800) ∧
     (now < sunrise ∨ sunset + 1800 < now → sun_progress now sunrise sunset = 0)) ∧
    sun_progress 22500 21600 64800 = 1/2 ∧
    sun_progress 43200 21600 64800 = 1 ∧
    sun_progress 65400 21600 64800 = 2/3 ∧
    sun_progress 7200 21600 64800 = 0 := by
  refine ⟨⟨?_, ?_, ?_, ?_⟩, by norm_num [sun_progress], by norm_num [sun_progress],
    by norm_num [sun_progress], by norm_num [sun_progress]⟩
  · rintro ⟨u1, u2⟩
    simp only [sun_progress]
    split_ifs with hA hB hC
    · rfl
    · exact absurd ⟨u1, u2⟩ hA
    · exact absurd ⟨u1, u2⟩ hA
    · exact absurd ⟨u1, u2⟩ hA
  · rintro ⟨u1, u2⟩
    simp only [sun_progress]
    split_ifs with hA hB hC
    · exact absurd u1 (not_lt.mpr hA.2)
    · rfl
    · exact absurd ⟨u1, u2⟩ hB
    · exact absurd ⟨u1, u2⟩ hB
  · rintro ⟨u1, u2⟩
    simp only [sun_progress]
    split_ifs with hA hB hC
    · have e1 : now = sunrise + 1800 := le_antisymm hA.2 (by linarith)
      have e2 : sunset = sunrise + 1800 := le_antisymm (by linarith) hsep
      rw [e1, e2]
      norm_num
    · exact absurd hB.2 (not_lt.mpr u1)
    · rfl
    · exact absurd ⟨u1, u2⟩ hC
  · intro u
    simp only [sun_progress]
    split_ifs with hA hB hC
    · rcases u with u | u
      · exact absurd hA.1 (not_le.mpr u)
      · exact absurd hA.2 (not_le.mpr (by linarith))
    · rcases u with u | u
      · exact absurd hB.1 (not_lt.mpr (by linarith))
      · exact absurd hB.2 (not_lt.mpr (by linarith))
    · rcases u with u | u
      · exact absurd hC.1 (not_le.mpr (by linarith))
      · exact absurd hC.2 (not_le.mpr u)
    · rfl

/-- Witness for C1 at the 06:15 rising example. -/
theorem C1_witness :
    (21600 : ℚ) < 64800 ∧ (21600 : ℚ) + 1800 ≤ 64800 ∧
      sun_progress 22500 21600 64800 = ((22500 : ℚ) - 21600) / 1800 :=
  ⟨by norm_num, by norm_num,
    (C1_sun_progress_ramp 22500 21600 64800 (by norm_num) (by norm_num)).1.1
      ⟨by norm_num, by norm_num⟩⟩

/-! ## Claim C10 -/

theorem sun_progress_zero_before (now sunrise sunset : ℚ) (h1 : sunrise ≤ sunset)
    (hc : now < sunrise) : sun_progress now sunrise sunset = 0 := by
  simp only [sun_progress]
  split_ifs with hA hB hC
  · exact absurd hA.1 (not_le.mpr hc)
  · exact absurd hB.1 (not_lt.mpr (by linarith))
  · exact absurd hC.1 (not_le.mpr (by linarith))
  · rfl

theorem sun_progress_pos_le (now sunrise sunset : ℚ) (h1 : sunrise ≤ sunset)
    (hp : 0 < sun_progress now sunrise sunset) : now ≤ sunset + 1800 := by
  revert hp
  simp only [sun_progress]
  split_ifs with hA hB hC <;> intro hp
  · linarith [hA.2]
  · linarith [hB.2]
  · exact hC.2
  · linarith

theorem moon_progress_pos_gt (now ss srt : ℚ) (h2 : ss + 3600 ≤ srt)
    (hp : 0 < moon_progress now (ss + 1800) (ss + 3600) (srt - 1800) srt) :
    ss + 1800 < now := by
  revert hp
  simp only [moon_progress]
  split_ifs with hA hB hC <;> intro hp
  · linarith [hA.1]
  · linarith [hB.1]
  · rcases not_and_or.mp hA with h | h
    · exact absurd (by linarith [hC.1]) h
    · push_neg at h
      linarith
  · linarith

/-- C10 counterexample: with the orderings the claim assumes
(`sunset_yesterday ≤ sunrise_today ≤ sunset_today ≤ sunrise_tomorrow`) but a
night shorter than one hour (`sunrise_tomorrow = sunset_today + 40min`), at
`now = sunset_today + 25min` the sun is still setting (`progress = 1/6`) while
the moon-set window of the short night is already active (`progress = 1/2`):
both are strictly positive on the same tick. -/
theorem C10_counterexample :
    (-21600 : ℚ) ≤ 21600 ∧ (21600 : ℚ) ≤ 64800 ∧ (64800 : ℚ) ≤ 67200 ∧
    0 < sun_progress 66300 21600 64800 ∧
    0 < moon_progress 66300
        (moonWindows 66300 21600 64800 (-21600) 67200).1
        (moonWindows 66300 21600 64800 (-21600) 67200).2.1
        (moonWindows 66300 21600 64800 (-21600) 67200).2.2.1
        (moonWindows 66300 21600 64800 (-21600) 67200).2.2.2 := by
  norm_num [sun_progress, moon_progress, moonWindows]

/-- C10 (amended): sun and moon progress are never both strictly positive,
provided `sunrise_today ≤ sunset_today` and the night is at least one hour
long (`sunset_today + 3600 ≤ sunrise_tomorrow`); the claim fails for shorter
nights. -/
theorem C10_sun_moon_exclusion
    (now sunrise_today sunset_today sunset_yesterday sunrise_tomorrow : ℚ)
    (h1 : sunrise_today ≤ sunset_today)
    (h2 : sunset_today + 3600 ≤ sunrise_tomorrow) :
    ¬(0 < sun_progress now sunrise_today sunset_today ∧
      0 < moon_progress now
        (moonWindows now sunrise_today sunset_today sunset_yesterday sunrise_tomorrow).1
        (moonWindows now sunrise_today sunset_today sunset_yesterday sunrise_tomorrow).2.1
        (moonWindows now sunrise_today sunset_today sunset_yesterday sunrise_tomorrow).2.2.1
        (moonWindows now sunrise_today sunset_today sunset_yesterday sunrise_tomorrow).2.2.2) := by
  rintro ⟨hs, hm⟩
  by_cases hc : now < sunrise_today
  · rw [sun_progress_zero_before now _ _ h1 hc] at hs
    exact lt_irrefl 0 hs
  · have hw : moonWindows now sunrise_today sunset_today sunset_yesterday sunrise_tomorrow =
        (sunset_today + 1800, sunset_today + 3600, sunrise_tomorrow - 1800, sunrise_tomorrow) := by
      simp only [moonWindows, if_neg hc]
    rw [hw] at hm
    have hle := sun_progress_pos_le now _ _ h1 hs
    have hgt := moon_progress_pos_gt now sunset_today sunrise_tomorrow h2 hm
    linarith

/-- Witness for C10 on the standard 06:00/18:00 fallback day at noon. -/
theorem C10_witness :
    ¬(0 < sun_progress 43200 21600 64800 ∧
      0 < moon_progress 43200
        (moonWindows 43200 21600 64800 (-21600) 108000).1
        (moonWindows 43200 21600 64800 (-21600) 108000).2.1
        (moonWindows 43200 21600 64800 (-21600) 108000).2.2.1
        (moonWindows 43200 21600 64800 (-21600) 108000).2.2.2) :=
  C10_sun_moon_exclusion 43200 21600 64800 (-21600) 108000 (by norm_num) (by norm_num)

/-! ## Claim C3 -/

/-- C3 counterexample: a started horizontal animation with duration 5 and
start time 0, updated at `t = 5` (so `elapsed = 5 ≥ duration`), still returns
`true` (the code tests `elapsed > duration` strictly); and updated at `t = 6`
(elapsed past the duration) it does deactivate but its `start_time` is NOT
cleared — the instance is inactive yet still started, contrary to the claimed
full auto-reset. -/
theorem C3_counterexample :
    ((5 : ℚ) - 0 ≥ ((HorizontalAnimation.init [testImg] ("left") 5 6 1).start 0).duration ∧
     (((HorizontalAnimation.init [testImg] ("left") 5 6 1).start 0).update_and_draw 5
        testCanvas).1 = true) ∧
    ((6 : ℚ) - 0 ≥ ((HorizontalAnimation.init [testImg] ("left") 5 6 1).start 0).duration ∧
     (((HorizontalAnimation.init [testImg] ("left") 5 6 1).start 0).update_and_draw 6
        testCanvas).2.1.active = false ∧
     (((HorizontalAnimation.init [testImg] ("left") 5 6 1).start 0).update_and_draw 6
        testCanvas).2.1.start_time = some 0) := by
  norm_num [HorizontalAnimation.init, HorizontalAnimation.start,
    HorizontalAnimation.update_and_draw]

/-- C3 (amended): for both animation variants, when a started, active
instance with a nonempty frame list is updated with `elapsed` STRICTLY past
its duration, `update_and_draw` returns `false` and deactivates the instance
(`active = false`), leaving `start_time` unchanged (still set); at
`elapsed = duration` exactly it still draws and returns `true`. -/
theorem C3_update_strict_termination (a : HorizontalAnimation) (h : HaunterAnimation)
    (cv cw : Canvas) (t u s r : ℚ) :
    (a.start_time = some s → a.active = true → a.frames ≠ [] → a.duration < t - s →
       a.update_and_draw t cv = (false, { a with active := false }, cv)) ∧
    (h.start_time = some r → h.active = true → h.frames ≠ [] → h.total_duration < u - r →
       h.update_and_draw u cw = (false, { h with active := false }, cw)) := by
  constructor
  · intro hst hact hfr hel
    simp only [HorizontalAnimation.update_and_draw, hst]
    split_ifs with g1
    · rcases g1 with g | g
      · rw [hact] at g
        exact absurd g (by simp)
      · rw [List.isEmpty_iff] at g
        exact absurd g hfr
    · rfl
  · intro hst hact hfr hel
    simp only [HaunterAnimation.update_and_draw, hst]
    split_ifs with g1
    · rcases g1 with g | g
      · rw [hact] at g
        exact absurd g (by simp)
      · rw [List.isEmpty_iff] at g
        exact absurd g hfr
    · rfl

/-- Witness for C3: the concrete horizontal animation of the counterexample,
updated at `t = 6`. -/
theorem C3_witness :
    ((HorizontalAnimation.init [testImg] ("left") 5 6 1).start 0).update_and_draw 6 testCanvas =
      (false,
       { (HorizontalAnimation.init [testImg] ("left") 5 6 1).start 0 with active := false },
       testCanvas) :=
  (C3_update_strict_termination ((HorizontalAnimation.init [testImg] ("left") 5 6 1).start 0)
      (HaunterAnimation.init [testImg] 2 3 8) testCanvas testCanvas 6 0 0 0).1
    rfl rfl (by norm_num [HorizontalAnimation.init, HorizontalAnimation.start])
    (by norm_num [HorizontalAnimation.init, HorizontalAnimation.start])

/-! ## Claim C7 -/

theorem skyRowColor_blend {d : ℚ} (hd : 0 < d ∧ d < 1) (h y : ℕ) :
    skyRowColor d h y =
      interpolate_color (interpolate_color NIGHT_SKY DAY_SKY d)
        (interpolate_color NIGHT_BOTTOM HORIZON_ORANGE d)
        ((y : ℚ) / ((max 1 (h - 1) : ℕ) : ℚ)) := by
  simp only [skyRowColor]
  rw [if_pos hd]

theorem skyRowColor_day {d : ℚ} (hd : 1 ≤ d) (h y : ℕ) :
    skyRowColor d h y =
      interpolate_color DAY_SKY HORIZON_ORANGE ((y : ℚ) / ((max 1 (h - 1) : ℕ) : ℚ)) := by
  simp only [skyRowColor]
  rw [if_neg (fun hc => absurd hd (not_le.mpr hc.2)), if_pos hd]

theorem skyRowColor_night {d : ℚ} (hd : d ≤ 0) (h y : ℕ) :
    skyRowColor d h y =
      interpolate_color NIGHT_SKY NIGHT_BOTTOM ((y : ℚ) / ((max 1 (h - 1) : ℕ) : ℚ)) := by
  simp only [skyRowColor]
  rw [if_neg (fun hc => absurd hc.1 (not_lt.mpr hd)),
    if_neg (not_le.mpr (lt_of_le_of_lt hd one_pos))]

-- Facts about the vertical factor `y / max(1, height - 1)`.

theorem vfactor_nonneg (h y : ℕ) : 0 ≤ (y : ℚ) / ((max 1 (h - 1) : ℕ) : ℚ) := by
  apply div_nonneg (by positivity)
  positivity

theorem vfactor_le_one {h y : ℕ} (hh : 2 ≤ h) (hy : y < h) :
    (y : ℚ) / ((max 1 (h - 1) : ℕ) : ℚ) ≤ 1 := by
  have hmax : max 1 (h - 1) = h - 1 := max_eq_right (by omega)
  rw [hmax]
  have hpos : (0 : ℚ) < ((h - 1 : ℕ) : ℚ) := by
    have h1 : 1 ≤ h - 1 := by omega
    exact_mod_cast Nat.lt_of_lt_of_le Nat.zero_lt_one h1
  rw [div_le_one hpos]
  have h2 : y ≤ h - 1 := by omega
  exact_mod_cast h2

theorem vfactor_mono {h y1 y2 : ℕ} (h12 : y1 ≤ y2) :
    (y1 : ℚ) / ((max 1 (h - 1) : ℕ) : ℚ) ≤ (y2 : ℚ) / ((max 1 (h - 1) : ℕ) : ℚ) := by
  have hpos : (0 : ℚ) < ((max 1 (h - 1) : ℕ) : ℚ) := by
    have : 1 ≤ max 1 (h - 1) := le_max_left _ _
    exact_mod_cast Nat.lt_of_lt_of_le Nat.zero_lt_one this
  exact (div_le_div_right hpos).mpr (by exact_mod_cast h12)

/-- C7: the sky renderer selects exactly the three claimed regimes on
day-progress `d`; at `d = 1` the painted top row is exactly `DAY_SKY` and the
painted bottom row exactly `HORIZON_ORANGE` (for canvases at least 2 rows
tall); the vertical blend at `d = 1` is monotone per channel (red increasing
downward, green and blue decreasing, matching the endpoint order); and no row
color has a component outside the range spanned by the two endpoint colors. -/
theorem C7_sky_gradient (c : Canvas) (d : ℚ) (y1 y2 : ℕ)
    (hh : 2 ≤ c.height) (hy1 : y1 < c.height) (hy2 : y2 < c.height) (h12 : y1 ≤ y2) :
    ((0 < d ∧ d < 1 → ∀ y : ℕ, skyRowColor d c.height y =
        interpolate_color (interpolate_color NIGHT_SKY DAY_SKY d)
          (interpolate_color NIGHT_BOTTOM HORIZON_ORANGE d)
          ((y : ℚ) / ((max 1 (c.height - 1) : ℕ) : ℚ))) ∧
     (1 ≤ d → ∀ y : ℕ, skyRowColor d c.height y =
        interpolate_color DAY_SKY HORIZON_ORANGE
          ((y : ℚ) / ((max 1 (c.height - 1) : ℕ) : ℚ))) ∧
     (d ≤ 0 → ∀ y : ℕ, skyRowColor d c.height y =
        interpolate_color NIGHT_SKY NIGHT_BOTTOM
          ((y : ℚ) / ((max 1 (c.height - 1) : ℕ) : ℚ)))) ∧
    (∀ x : ℤ, 0 ≤ x → x < (c.width : ℤ) →
       (draw_sky_gradient c 1).pix x 0 = DAY_SKY ∧
       (draw_sky_gradient c 1).pix x ((c.height : ℤ) - 1) = HORIZON_ORANGE) ∧
    ((skyRowColor 1 c.height y1).1 ≤ (skyRowColor 1 c.height y2).1 ∧
     (skyRowColor 1 c.height y2).2.1 ≤ (skyRowColor 1 c.height y1).2.1 ∧
     (skyRowColor 1 c.height y2).2.2 ≤ (skyRowColor 1 c.height y1).2.2) ∧
    (min DAY_SKY.1 HORIZON_ORANGE.1 ≤ (skyRowColor 1 c.height y1).1 ∧
     (skyRowColor 1 c.height y1).1 ≤ max DAY_SKY.1 HORIZON_ORANGE.1 ∧
     min DAY_SKY.2.1 HORIZON_ORANGE.2.1 ≤ (skyRowColor 1 c.height y1).2.1 ∧
     (skyRowColor 1 c.height y1).2.1 ≤ max DAY_SKY.2.1 HORIZON_ORANGE.2.1 ∧
     min DAY_SKY.2.2 HORIZON_ORANGE.2.2 ≤ (skyRowColor 1 c.height y1).2.2 ∧
     (skyRowColor 1 c.height y1).2.2 ≤ max DAY_SKY.2.2 HORIZON_ORANGE.2.2) := by
  have hf0 := vfactor_nonneg c.height y1
  have hf1 := vfactor_le_one hh hy1
  have hg0 := vfactor_nonneg c.height y2
  have hg1 := vfactor_le_one hh hy2
  have hmono := vfactor_mono (h := c.height) h12
  refine ⟨⟨fun hd y => skyRowColor_blend hd _ y, fun hd y => skyRowColor_day hd _ y,
      fun hd y => skyRowColor_night hd _ y⟩, ?_, ?_, ?_⟩
  · intro x hx0 hx
    constructor
    · rw [draw_sky_gradient_pix c 1 hx0 hx (le_refl 0) (by omega)]
      rw [skyRowColor_day le_rfl]
      show interpolate_color DAY_SKY HORIZON_ORANGE (((0 : ℕ) : ℚ) / _) = DAY_SKY
      rw [Nat.cast_zero, zero_div, interpolate_color_zero]
    · have hb0 : (0 : ℤ) ≤ (c.height : ℤ) - 1 := by
        have : (2 : ℤ) ≤ (c.height : ℤ) := by exact_mod_cast hh
        omega
      have hb : (c.height : ℤ) - 1 < (c.height : ℤ) := by omega
      rw [draw_sky_gradient_pix c 1 hx0 hx hb0 hb]
      have htn : ((c.height : ℤ) - 1).toNat = c.height - 1 := by omega
      rw [htn, skyRowColor_day le_rfl]
      have hmax : max 1 (c.height - 1) = c.height - 1 := max_eq_right (by omega)
      rw [hmax]
      have hne : (((c.height - 1 : ℕ) : ℚ)) ≠ 0 := Nat.cast_ne_zero.mpr (by omega)
      rw [div_self hne, interpolate_color_one]
  · rw [skyRowColor_day le_rfl, skyRowColor_day le_rfl]
    refine ⟨?_, ?_, ?_⟩
    · exact pyInt_channel_mono (by decide) (by decide) (by decide) hf0 hmono
    · exact pyInt_channel_anti (by decide) (by decide) (by decide) hf0 hg1 hmono
    · exact pyInt_channel_anti (by decide) (by decide) (by decide) hf0 hg1 hmono
  · rw [skyRowColor_day le_rfl]
    obtain ⟨r1, r2⟩ := pyInt_channel_between (a := DAY_SKY.1) (b := HORIZON_ORANGE.1)
      (by decide) (by decide) hf0 hf1
    obtain ⟨g1, g2⟩ := pyInt_channel_between (a := DAY_SKY.2.1) (b := HORIZON_ORANGE.2.1)
      (by decide) (by decide) hf0 hf1
    obtain ⟨b1, b2⟩ := pyInt_channel_between (a := DAY_SKY.2.2) (b := HORIZON_ORANGE.2.2)
      (by decide) (by decide) hf0 hf1
    exact ⟨r1, r2, g1, g2, b1, b2⟩

/-- Witness for C7 on the configured 64x32 canvas at rows 3 and 7. -/
theorem C7_witness :
    (draw_sky_gradient testCanvas 1).pix 0 0 = DAY_SKY ∧
    (draw_sky_gradient testCanvas 1).pix 0 ((testCanvas.height : ℤ) - 1) = HORIZON_ORANGE :=
  (C7_sky_gradient testCanvas 1 3 7 (by norm_num [testCanvas]) (by norm_num [testCanvas])
    (by norm_num [testCanvas]) (by norm_num)).2.1 0 (le_refl 0) (by norm_num [testCanvas])

/-! ## Claim C8 -/

/-- C8: the sprite compositor writes only pixels whose canvas coordinates lie
in `[0, width) x [0, height)` and (for RGBA sprites) whose source alpha is at
least the fixed threshold 10; drawing a fully transparent RGBA sprite leaves
the canvas unchanged, and drawing a sprite positioned fully outside the canvas
bounds leaves it unchanged (the embedding is a total function — no error). -/
theorem C8_compositor (c : Canvas) (img : Image) (xo yo : ℤ) :
    (∀ a b : ℤ, (draw_image_on_canvas c (some img) xo yo).pix a b ≠ c.pix a b →
       (0 ≤ a ∧ a < (c.width : ℤ) ∧ 0 ≤ b ∧ b < (c.height : ℤ)) ∧
       (img.hasAlpha = true → 10 ≤ (img.px (a - xo) (b - yo)).2.2.2)) ∧
    (img.hasAlpha = true → (∀ x y : ℤ, (img.px x y).2.2.2 < 10) →
       draw_image_on_canvas c (some img) xo yo = c) ∧
    (((c.width : ℤ) ≤ xo ∨ xo + (img.width : ℤ) ≤ 0 ∨ (c.height : ℤ) ≤ yo ∨
        yo + (img.height : ℤ) ≤ 0) →
       draw_image_on_canvas c (some img) xo yo = c) := by
  refine ⟨?_, ?_, ?_⟩
  · intro a b hne
    have hchanged : ∃ p ∈ spriteWrites c img xo yo, p.1 = a ∧ p.2.1 = b := by
      apply paintList_pix_changed
      exact hne
    obtain ⟨p, hp, hpa, hpb⟩ := hchanged
    obtain ⟨x, y, hx1, hx2, hy1, hy2, he1, he2, halpha⟩ := spriteWrites_mem_elim hp
    have ea : a = x + xo := by rw [← hpa, he1]
    have eb : b = y + yo := by rw [← hpb, he2]
    have l1 := le_trans (le_max_right 0 (-xo)) hx1
    have l2 := lt_of_lt_of_le hx2 (min_le_right _ _)
    have l3 := le_trans (le_max_right 0 (-yo)) hy1
    have l4 := lt_of_lt_of_le hy2 (min_le_right _ _)
    constructor
    · omega
    · intro hA
      have hxa : x = a - xo := by omega
      have hyb : y = b - yo := by omega
      rw [hxa, hyb] at halpha
      by_contra hlt
      exact halpha ⟨hA, not_le.mp hlt⟩
  · intro hA hall
    have hnil : spriteWrites c img xo yo = [] := by
      apply List.eq_nil_iff_forall_not_mem.mpr
      intro p hp
      obtain ⟨x, y, _, _, _, _, _, _, halpha⟩ := spriteWrites_mem_elim hp
      exact halpha ⟨hA, hall x y⟩
    show paintList c (spriteWrites c img xo yo) = c
    rw [hnil, paintList_nil]
  · intro hout
    have hnil : spriteWrites c img xo yo = [] := by
      apply List.eq_nil_iff_forall_not_mem.mpr
      intro p hp
      obtain ⟨x, y, hx1, hx2, hy1, hy2, _, _, _⟩ := spriteWrites_mem_elim hp
      have l1 := le_trans (le_max_right 0 (-xo)) hx1
      have l1a := le_trans (le_max_left 0 (-xo)) hx1
      have l2 := lt_of_lt_of_le hx2 (min_le_right _ _)
      have l2a := lt_of_lt_of_le hx2 (min_le_left _ _)
      have l3 := le_trans (le_max_right 0 (-yo)) hy1
      have l3a := le_trans (le_max_left 0 (-yo)) hy1
      have l4 := lt_of_lt_of_le hy2 (min_le_right _ _)
      have l4a := lt_of_lt_of_le hy2 (min_le_left _ _)
      rcases hout with hcase | hcase | hcase | hcase <;> omega
    show paintList c (spriteWrites c img xo yo) = c
    rw [hnil, paintList_nil]

/-- Witness for C8: the fully transparent test sprite drawn inside the canvas
is a no-op, and an opaque sprite placed fully right of the canvas is a
no-op. -/
theorem C8_witness :
    draw_image_on_canvas testCanvas (some testImg) 5 5 = testCanvas ∧
    draw_image_on_canvas testCanvas (some markImg) 100 0 = testCanvas :=
  ⟨(C8_compositor testCanvas testImg 5 5).2.1 rfl
      (fun x y => by norm_num [testImg]),
   (C8_compositor testCanvas markImg 100 0).2.2 (Or.inl (by norm_num [testCanvas]))⟩

/-! ## Claim C9 -/

/-- C9: on any tick where the astronomical lookup raises for today, yesterday
or tomorrow, all four sun instants fall back to the fixed local-clock times
(06:00 sunrise, 18:00 sunset, with yesterday's 18:00 sunset and tomorrow's
06:00 sunrise), and the whole tick behaves exactly as a tick whose lookup
returns those fixed times — the loop keeps rendering instead of propagating
the error.  The lookup is consulted afresh each tick: whenever all three
calls succeed the looked-up values are used, with no memory of earlier
failures. -/
theorem C9_lookup_fallback (cfg : Config) (lookup : ℤ → Option (ℚ × ℚ))
    (st : LoopState) (cv : Canvas) (now : ℚ) :
    ((lookup (dateOf now) = none ∨ lookup (dateOf (now - 86400)) = none ∨
        lookup (dateOf (now + 86400)) = none) →
      sunTimes lookup now =
        (replaceTime now 21600, replaceTime now 64800,
         replaceTime (now - 86400) 64800, replaceTime (now + 86400) 21600) ∧
      loopTick cfg lookup st cv now = loopTick cfg fallbackLookup st cv now) ∧
    (∀ p q r : ℚ × ℚ, lookup (dateOf now) = some p →
       lookup (dateOf (now - 86400)) = some q → lookup (dateOf (now + 86400)) = some r →
       sunTimes lookup now = (p.1, p.2, q.2, r.1)) := by
  constructor
  · intro hfail
    have hsun : sunTimes lookup now =
        (replaceTime now 21600, replaceTime now 64800,
         replaceTime (now - 86400) 64800, replaceTime (now + 86400) 21600) := by
      rcases h1 : lookup (dateOf now) with _ | v1 <;>
        rcases h2 : lookup (dateOf (now - 86400)) with _ | v2 <;>
          rcases h3 : lookup (dateOf (now + 86400)) with _ | v3 <;>
            simp only [sunTimes, h1, h2, h3]
      rcases hfail with h | h | h
      · rw [h1] at h; exact absurd h (by simp)
      · rw [h2] at h; exact absurd h (by simp)
      · rw [h3] at h; exact absurd h (by simp)
    refine ⟨hsun, ?_⟩
    have hfb : sunTimes fallbackLookup now =
        (replaceTime now 21600, replaceTime now 64800,
         replaceTime (now - 86400) 64800, replaceTime (now + 86400) 21600) := by
      simp only [sunTimes, fallbackLookup, replaceTime, dateOf]
    have hkey : sunTimes lookup now = sunTimes fallbackLookup now := by rw [hsun, hfb]
    simp only [loopTick, hkey]
  · intro p q r h1 h2 h3
    simp only [sunTimes, h1, h2, h3]

/-- Witness for C9 at noon of day 0 with an always-failing lookup. -/
theorem C9_witness :
    sunTimes noLookup 43200 =
      (replaceTime 43200 21600, replaceTime 43200 64800,
       replaceTime (43200 - 86400) 64800, replaceTime (43200 + 86400) 21600) ∧
    loopTick testCfg noLookup
        (mkInitState [testImg] [testImg] [testImg] [testImg] [testImg] 0) testCanvas 43200 =
      loopTick testCfg fallbackLookup
        (mkInitState [testImg] [testImg] [testImg] [testImg] [testImg] 0) testCanvas 43200 :=
  (C9_lookup_fallback testCfg noLookup
      (mkInitState [testImg] [testImg] [testImg] [testImg] [testImg] 0) testCanvas 43200).1
    (Or.inl rfl)

/-! ## Claim C2 -/

/-- C2 (amended): on a tick whose minute differs from the previously recorded
minute, the reset of the chain and the night animation happens ONLY when the
first member (ho-oh) is not active: then ho-oh is restarted at the current
time and the other members' and the night animation's start times are cleared
(their `active` flags are left untouched).  When ho-oh IS active at the
rollover, no reset at all happens on that tick — only the recorded minute is
updated. -/
theorem C2_rollover_requires_hooh_inactive (st : LoopState) (now : ℚ) (pm : ℤ)
    (hpm : st.prev_minute = some pm) (hne : minuteOf now ≠ pm) :
    (st.hooh_anim.active = false →
       minuteRollover st now =
         { st with prev_minute := some (minuteOf now),
                   hooh_anim := st.hooh_anim.start now,
                   lugia_anim := { st.lugia_anim with start_time := none },
                   trainer_anim := { st.trainer_anim with start_time := none },
                   ray_anim := { st.ray_anim with start_time := none },
                   haunter_anim := { st.haunter_anim with start_time := none } }) ∧
    (st.hooh_anim.active = true →
       minuteRollover st now = { st with prev_minute := some (minuteOf now) }) := by
  constructor
  · intro hact
    simp only [minuteRollover, hpm]
    rw [if_pos hne, if_pos hact]
  · intro hact
    simp only [minuteRollover, hpm]
    rw [if_pos hne, if_neg (by rw [hact]; simp)]

/-- Witness for C2: a state with recorded minute 5 and ho-oh inactive, ticked
at `now = 360` (minute 6). -/
theorem C2_witness :
    minuteRollover
        { mkInitState [testImg] [testImg] [testImg] [testImg] [testImg] 0 with
            prev_minute := some 5,
            hooh_anim := HorizontalAnimation.init [testImg] ("left") 5 6 1 } 360 =
      { mkInitState [testImg] [testImg] [testImg] [testImg] [testImg] 0 with
          prev_minute := some (minuteOf 360),
          hooh_anim := (HorizontalAnimation.init [testImg] ("left") 5 6 1).start 360,
          lugia_anim :=
            { (mkInitState [testImg] [testImg] [testImg] [testImg] [testImg] 0).lugia_anim with
                start_time := none },
          trainer_anim :=
            { (mkInitState [testImg] [testImg] [testImg] [testImg] [testImg] 0).trainer_anim with
                start_time := none },
          ray_anim :=
            { (mkInitState [testImg] [testImg] [testImg] [testImg] [testImg] 0).ray_anim with
                start_time := none },
          haunter_anim :=
            { (mkInitState [testImg] [testImg] [testImg] [testImg] [testImg] 0).haunter_anim with
                start_time := none } } :=
  (C2_rollover_requires_hooh_inactive _ 360 5 rfl (by norm_num [minuteOf])).1 rfl

/-- The loop state `main` builds when started at `t0 = 3597` (59 minutes 57
seconds after local midnight). -/
def c2InitState : LoopState :=
  mkInitState [testImg] [testImg] [testImg] [testImg] [testImg] 3597

/-- The loop state after the first tick at 3597: minute 59 recorded, ho-oh
running since 3597, the night animation started (the moon is up at night),
everything else untouched. -/
def c2MidState : LoopState :=
  { prev_minute := some 59,
    hooh_anim := { frames := [testImg], direction := "left", duration := 5, fps := 6,
                   y_offset := 1, start_time := some 3597, active := true, width := 3, height := 3 },
    lugia_anim := { frames := [testImg], direction := "left", duration := 5, fps := 6,
                    y_offset := 17, start_time := none, active := false, width := 3, height := 3 },
    trainer_anim := { frames := [testImg], direction := "right", duration := 7, fps := 6,
                      y_offset := 18, start_time := none, active := false, width := 3, height := 3 },
    ray_anim := { frames := [testImg], direction := "left", duration := 7, fps := 6,
                  y_offset := 0, start_time := none, active := false, width := 3, height := 3 },
    haunter_anim := { frames := [testImg], slide_duration := 2, hold_duration := 3,
                      total_duration := 7, fps := 8, start_time := some 3597, active := true,
                      width := 3, height := 3 },
    cloud_offset := 0, cloud_drift_direction := 1 }

set_option maxHeartbeats 1000000 in
/-- C2 counterexample: starting the loop at 3597 (minute 59) and ticking at
3597 and then 3600.5 (minute 0), the second tick sees the minute change
(recorded 59, current 0) while ho-oh is still mid-flight (started 3597,
duration 5).  The recorded minute is updated, but nothing is reset that tick:
ho-oh keeps its old start time 3597 (a reset would restart it at 3600.5) and
the night animation's start time is not cleared either — contradicting "the
chain (and the night animation) is reset on that same tick regardless of
which animations are currently active". -/
theorem C2_counterexample :
    minuteOf (7201/2) = 0 ∧ (0 : ℤ) ≠ 59 ∧
    (runTicks testCfg noLookup (c2InitState, testCanvas) [3597]).1.prev_minute = some 59 ∧
    (runTicks testCfg noLookup (c2InitState, testCanvas) [3597]).1.hooh_anim.active = true ∧
    (runTicks testCfg noLookup (c2InitState, testCanvas) [3597, 7201/2]).1.prev_minute = some 0 ∧
    (runTicks testCfg noLookup (c2InitState, testCanvas)
        [3597, 7201/2]).1.hooh_anim.start_time = some 3597 ∧
    (runTicks testCfg noLookup (c2InitState, testCanvas)
        [3597, 7201/2]).1.hooh_anim.active = true ∧
    (runTicks testCfg noLookup (c2InitState, testCanvas)
        [3597, 7201/2]).1.haunter_anim.start_time = some 3597 := by
  have h1 : ∀ cv : Canvas, (loopTick testCfg noLookup c2InitState cv 3597).1 = c2MidState := by
    intro cv
    norm_num [loopTick, minuteRollover, c2InitState, c2MidState, mkInitState,
      HorizontalAnimation.init, HaunterAnimation.init, HorizontalAnimation.start,
      HaunterAnimation.start, HorizontalAnimation.update_and_draw,
      HaunterAnimation.update_and_draw, sunTimes, noLookup, sun_progress, moon_progress,
      moonWindows, dateOf, minuteOf, replaceTime, testCfg, CLOUDY, testImg]
  have h2 : ∀ cv : Canvas, (loopTick testCfg noLookup c2MidState cv (7201/2)).1 =
      { c2MidState with prev_minute := some 0 } := by
    intro cv
    norm_num [loopTick, minuteRollover, c2MidState, HorizontalAnimation.init,
      HaunterAnimation.init, HorizontalAnimation.start, HaunterAnimation.start,
      HorizontalAnimation.update_and_draw, HaunterAnimation.update_and_draw,
      sunTimes, noLookup, sun_progress, moon_progress, moonWindows, dateOf, minuteOf,
      replaceTime, testCfg, CLOUDY, testImg]
  have e1 : (runTicks testCfg noLookup (c2InitState, testCanvas) [3597]).1 =
      (loopTick testCfg noLookup c2InitState testCanvas 3597).1 := rfl
  have e2 : (runTicks testCfg noLookup (c2InitState, testCanvas) [3597, 7201/2]).1 =
      (loopTick testCfg noLookup
        (loopTick testCfg noLookup c2InitState testCanvas 3597).1
        (loopTick testCfg noLookup c2InitState testCanvas 3597).2 (7201/2)).1 := rfl
  have key1 : (runTicks testCfg noLookup (c2InitState, testCanvas) [3597]).1 = c2MidState := by
    rw [e1, h1]
  have key2 : (runTicks testCfg noLookup (c2InitState, testCanvas) [3597, 7201/2]).1 =
      { c2MidState with prev_minute := some 0 } := by
    rw [e2, h1 testCanvas, h2]
  refine ⟨by norm_num [minuteOf], by norm_num, ?_, ?_, ?_, ?_, ?_, ?_⟩
  · rw [key1]
    rfl
  · rw [key1]
    rfl
  · rw [key2]
  · rw [key2]
    rfl
  · rw [key2]
    rfl
  · rw [key2]
    rfl


/-! ## Claim C4 -/

-- Named snapshots of the animation objects along the C4 trace.

/-- Ho-oh running since 3112. -/
def hoohRun3112 : HorizontalAnimation :=
  { frames := [testImg], direction := "left", duration := 5, fps := 6, y_offset := 1,
    start_time := some 3112, active := true, width := 3, height := 3 }

/-- Ho-oh after self-terminating: inactive but still started at 3112. -/
def hoohDone3112 : HorizontalAnimation :=
  { hoohRun3112 with active := false }

/-- Ho-oh restarted by the rollover reset at 3121. -/
def hoohRun3121 : HorizontalAnimation :=
  { hoohRun3112 with start_time := some 3121 }

/-- Lugia as built at startup: idle. -/
def lugiaIdle : HorizontalAnimation :=
  { frames := [testImg], direction := "left", duration := 5, fps := 6, y_offset := 17,
    start_time := none, active := false, width := 3, height := 3 }

/-- Lugia started at 3118. -/
def lugiaRun3118 : HorizontalAnimation :=
  { lugiaIdle with start_time := some 3118, active := true }

/-- Lugia after the rollover reset cleared its start time: active = true is
left behind. -/
def lugiaStuck : HorizontalAnimation :=
  { lugiaIdle with start_time := none, active := true }

/-- The trainer as built at startup: idle. -/
def trainerIdle : HorizontalAnimation :=
  { frames := [testImg], direction := "right", duration := 7, fps := 6, y_offset := 18,
    start_time := none, active := false, width := 3, height := 3 }

/-- Rayquaza as built at startup: idle. -/
def rayIdle : HorizontalAnimation :=
  { frames := [testImg], direction := "left", duration := 7, fps := 6, y_offset := 0,
    start_time := none, active := false, width := 3, height := 3 }

/-- The Haunter animation started at 3112 (the moon is up at night). -/
def haunterRun3112 : HaunterAnimation :=
  { frames := [testImg], slide_duration := 2, hold_duration := 3, total_duration := 7,
    fps := 8, start_time := some 3112, active := true, width := 3, height := 3 }

/-- The Haunter animation after the rollover reset: start time cleared, the
active flag left behind. -/
def haunterStuck : HaunterAnimation :=
  { haunterRun3112 with start_time := none }

/-- The loop state `main` builds when started at `t0 = 3112` (51 minutes 52
seconds after local midnight). -/
def c4InitState : LoopState :=
  mkInitState [testImg] [testImg] [testImg] [testImg] [testImg] 3112

/-- State after the first tick at 3112: minute 51 recorded, ho-oh flying,
night animation started. -/
def c4StA : LoopState :=
  { prev_minute := some 51, hooh_anim := hoohRun3112, lugia_anim := lugiaIdle,
    trainer_anim := trainerIdle, ray_anim := rayIdle, haunter_anim := haunterRun3112,
    cloud_offset := 0, cloud_drift_direction := 1 }

/-- State after the second tick at 3118: ho-oh has self-terminated
(elapsed 6 > 5) and lugia has been started in its place. -/
def c4StB : LoopState :=
  { c4StA with hooh_anim := hoohDone3112, lugia_anim := lugiaRun3118 }

/-- State after the third tick at 3121 (minute 52): the rollover reset ran
(ho-oh inactive), restarting ho-oh and clearing the other start times — but
NOT the active flags, so lugia (and the night animation) remain active. -/
def c4StC : LoopState :=
  { prev_minute := some 52, hooh_anim := hoohRun3121, lugia_anim := lugiaStuck,
    trainer_anim := trainerIdle, ray_anim := rayIdle, haunter_anim := haunterStuck,
    cloud_offset := 0, cloud_drift_direction := 1 }

set_option maxHeartbeats 1600000 in
theorem c4_tick1 : ∀ cv : Canvas, (loopTick testCfg noLookup c4InitState cv 3112).1 = c4StA := by
  intro cv
  norm_num [loopTick, minuteRollover, c4InitState, c4StA, mkInitState,
    hoohRun3112, lugiaIdle, trainerIdle, rayIdle, haunterRun3112,
    HorizontalAnimation.init, HaunterAnimation.init, HorizontalAnimation.start,
    HaunterAnimation.start, HorizontalAnimation.update_and_draw,
    HaunterAnimation.update_and_draw, sunTimes, noLookup, sun_progress, moon_progress,
    moonWindows, dateOf, minuteOf, replaceTime, testCfg, CLOUDY, testImg]

set_option maxHeartbeats 1600000 in
theorem c4_tick2 : ∀ cv : Canvas, (loopTick testCfg noLookup c4StA cv 3118).1 = c4StB := by
  intro cv
  have hsun : sunTimes noLookup 3118 = (21600, 64800, -21600, 108000) := by
    norm_num [sunTimes, noLookup, replaceTime, dateOf]
  have hsp : sun_progress 3118 21600 64800 = 0 := by norm_num [sun_progress]
  have hmw : moonWindows 3118 21600 64800 (-21600) 108000 =
      (-19800, -18000, 19800, 21600) := by
    norm_num [moonWindows]
  have hmp : moon_progress 3118 (-19800) (-18000) 19800 21600 = 1 := by
    norm_num [moon_progress]
  have hro : minuteRollover c4StA 3118 = c4StA := by
    norm_num [minuteRollover, c4StA, minuteOf]
  have l1 : ∀ c : Canvas, hoohRun3112.update_and_draw 3118 c = (false, hoohDone3112, c) := by
    intro c
    norm_num [HorizontalAnimation.update_and_draw, hoohRun3112, hoohDone3112]
  have l2 : lugiaIdle.start 3118 = lugiaRun3118 := by
    norm_num [HorizontalAnimation.start, lugiaIdle, lugiaRun3118, testImg]
  have l3 : ∀ c : Canvas, (lugiaRun3118.update_and_draw 3118 c).1 = true ∧
      (lugiaRun3118.update_and_draw 3118 c).2.1 = lugiaRun3118 := by
    intro c
    norm_num [HorizontalAnimation.update_and_draw, lugiaRun3118, lugiaIdle]
  have l4 : ∀ (c : Canvas) (t : ℚ), trainerIdle.update_and_draw t c = (false, trainerIdle, c) :=
    fun c t => rfl
  have l5 : ∀ (c : Canvas) (t : ℚ), rayIdle.update_and_draw t c = (false, rayIdle, c) :=
    fun c t => rfl
  have l6 : ∀ c : Canvas, (haunterRun3112.update_and_draw 3118 c).1 = true ∧
      (haunterRun3112.update_and_draw 3118 c).2.1 = haunterRun3112 := by
    intro c
    norm_num [HaunterAnimation.update_and_draw, haunterRun3112]
  have f1 : lugiaIdle.active = false := rfl
  have f2 : lugiaIdle.start_time = none := rfl
  have f3 : hoohDone3112.start_time = some 3112 := rfl
  have f4 : trainerIdle.active = false := rfl
  have f5 : trainerIdle.start_time = none := rfl
  have f6 : rayIdle.active = false := rfl
  have f7 : rayIdle.start_time = none := rfl
  have f8 : lugiaRun3118.start_time = some 3118 := rfl
  have f9 : haunterRun3112.active = true := rfl
  have g1 : c4StA.prev_minute = some 51 := rfl
  have g2 : c4StA.hooh_anim = hoohRun3112 := rfl
  have g3 : c4StA.lugia_anim = lugiaIdle := rfl
  have g4 : c4StA.trainer_anim = trainerIdle := rfl
  have g5 : c4StA.ray_anim = rayIdle := rfl
  have g6 : c4StA.haunter_anim = haunterRun3112 := rfl
  have g7 : c4StA.cloud_offset = 0 := rfl
  have g8 : c4StA.cloud_drift_direction = 1 := rfl
  have k1 : c4StB.prev_minute = some 51 := rfl
  have k2 : c4StB.hooh_anim = hoohDone3112 := rfl
  have k3 : c4StB.lugia_anim = lugiaRun3118 := rfl
  have k4 : c4StB.trainer_anim = trainerIdle := rfl
  have k5 : c4StB.ray_anim = rayIdle := rfl
  have k6 : c4StB.haunter_anim = haunterRun3112 := rfl
  have k7 : c4StB.cloud_offset = 0 := rfl
  have k8 : c4StB.cloud_drift_direction = 1 := rfl
  norm_num [loopTick, hsun, hro, hsp, hmw, hmp,
    l1, l2, (fun c => (l3 c).1), (fun c => (l3 c).2), l4, l5,
    (fun c => (l6 c).1), (fun c => (l6 c).2),
    f1, f2, f3, f4, f5, f6, f7, f8, f9,
    g1, g2, g3, g4, g5, g6, g7, g8, k1, k2, k3, k4, k5, k6, k7, k8,
    LoopState.mk.injEq, Option.some_ne_none, Option.isSome_none, reduceCtorEq,
    testCfg, CLOUDY]
  rfl

set_option maxHeartbeats 1600000 in
theorem c4_tick3 : ∀ cv : Canvas, (loopTick testCfg noLookup c4StB cv 3121).1 = c4StC := by
  intro cv
  norm_num [loopTick, minuteRollover, c4StA, c4StB, c4StC,
    hoohRun3112, hoohDone3112, hoohRun3121, lugiaIdle, lugiaRun3118, lugiaStuck,
    trainerIdle, rayIdle, haunterRun3112, haunterStuck,
    HorizontalAnimation.init, HaunterAnimation.init, HorizontalAnimation.start,
    HaunterAnimation.start, HorizontalAnimation.update_and_draw,
    HaunterAnimation.update_and_draw, sunTimes, noLookup, sun_progress, moon_progress,
    moonWindows, dateOf, minuteOf, replaceTime, testCfg, CLOUDY, testImg]

/-- C4: a reachable frame-loop execution in which two chain members have
`active = true` simultaneously.  Start the loop at 3112 (51:52 into the hour)
and tick at 3112, 3118 and 3121.  The minute boundary at 3120 falls while
lugia is mid-animation; the rollover reset (ho-oh being inactive) restarts
ho-oh and clears lugia's `start_time` but not its `active` flag.  After that
tick both ho-oh and lugia are active — and lugia, active but unstarted, can
never be restarted, wedging the chain.  This contradicts the invariant the
spec states ("at most one member animation is active at a time"); the reset
omitting `active = False` is a code slip. -/
theorem C4_two_chain_members_active :
    (runTicks testCfg noLookup (c4InitState, testCanvas)
        [3112, 3118, 3121]).1.hooh_anim.active = true ∧
    (runTicks testCfg noLookup (c4InitState, testCanvas)
        [3112, 3118, 3121]).1.lugia_anim.active = true ∧
    (runTicks testCfg noLookup (c4InitState, testCanvas)
        [3112, 3118, 3121]).1.lugia_anim.start_time = none := by
  have e3 : (runTicks testCfg noLookup (c4InitState, testCanvas) [3112, 3118, 3121]).1 =
      (loopTick testCfg noLookup
        (loopTick testCfg noLookup
          (loopTick testCfg noLookup c4InitState testCanvas 3112).1
          (loopTick testCfg noLookup c4InitState testCanvas 3112).2 3118).1
        (loopTick testCfg noLookup
          (loopTick testCfg noLookup c4InitState testCanvas 3112).1
          (loopTick testCfg noLookup c4InitState testCanvas 3112).2 3118).2 3121).1 := rfl
  have key : (runTicks testCfg noLookup (c4InitState, testCanvas) [3112, 3118, 3121]).1 =
      c4StC := by
    rw [e3, c4_tick1 testCanvas, c4_tick2, c4_tick3]
  refine ⟨?_, ?_, ?_⟩ <;> rw [key] <;> rfl

/-! ## Claim C5 -/

/-- The sun progress the loop body computes on a tick. -/
def tickSunProgress (lookup : ℤ → Option (ℚ × ℚ)) (now : ℚ) : ℚ :=
  let s4 := sunTimes lookup now
  sun_progress now s4.1 s4.2.1

/-- The moon progress the loop body computes on a tick. -/
def tickMoonProgress (lookup : ℤ → Option (ℚ × ℚ)) (now : ℚ) : ℚ :=
  let s4 := sunTimes lookup now
  let w := moonWindows now s4.1 s4.2.1 s4.2.2.1 s4.2.2.2
  moon_progress now w.1 w.2.1 w.2.2.1 w.2.2.2

/-- The returned animation state of `update_and_draw` does not depend on the
canvas passed in (only the drawn pixels do). -/
theorem HorizontalAnimation.update_state_indep (a : HorizontalAnimation) (t : ℚ)
    (c1 c2 : Canvas) :
    (a.update_and_draw t c1).2.1 = (a.update_and_draw t c2).2.1 := by
  cases hst : a.start_time with
  | none => simp only [HorizontalAnimation.update_and_draw, hst]
  | some ts =>
    simp only [HorizontalAnimation.update_and_draw, hst]
    split_ifs <;> rfl

/-- Started at `t` and updated at the same `t`, a Haunter animation with
frames and a nonnegative total duration stays exactly in its started state. -/
theorem HaunterAnimation.started_update (h : HaunterAnimation) (t : ℚ) (c : Canvas)
    (hfr : h.frames ≠ []) (htd : 0 ≤ h.total_duration) :
    ((h.start t).update_and_draw t c).2.1 = h.start t := by
  have hfrb : h.frames.isEmpty = false := by
    simp [List.isEmpty_iff, hfr]
  have hs : h.start t = { h with start_time := some t, active := true } := by
    simp [HaunterAnimation.start, hfrb]
  rw [hs]
  have h2 : ¬(h.total_duration < 0) := not_lt.mpr htd
  simp [HaunterAnimation.update_and_draw, hfrb, h2]

/-- C5 (amended): the day chain is updated on EVERY tick, regardless of sun
progress — the first member's post-tick state is always its
`update_and_draw` result (on whatever canvas).  The night Haunter animation
is driven if and only if the tick's MOON progress is strictly positive (not:
sun progress nonpositive): when moon progress is `≤ 0` it is left completely
untouched, and when moon progress is positive and it is idle (inactive AND
unstarted) it is auto-started at the current time. -/
theorem C5_chain_unconditional_haunter_moon_gated (cfg : Config)
    (lookup : ℤ → Option (ℚ × ℚ)) (st : LoopState) (cv cw : Canvas) (now : ℚ) :
    ((loopTick cfg lookup st cv now).1.hooh_anim =
       ((minuteRollover st now).hooh_anim.update_and_draw now cw).2.1) ∧
    (tickMoonProgress lookup now ≤ 0 →
       (loopTick cfg lookup st cv now).1.haunter_anim =
         (minuteRollover st now).haunter_anim) ∧
    (0 < tickMoonProgress lookup now →
       (minuteRollover st now).haunter_anim.active = false →
       (minuteRollover st now).haunter_anim.start_time = none →
       (minuteRollover st now).haunter_anim.frames ≠ [] →
       0 ≤ (minuteRollover st now).haunter_anim.total_duration →
       (loopTick cfg lookup st cv now).1.haunter_anim =
         (minuteRollover st now).haunter_anim.start now) := by
  refine ⟨?_, ?_, ?_⟩
  · obtain ⟨cX, hX⟩ : ∃ cX, (loopTick cfg lookup st cv now).1.hooh_anim =
        ((minuteRollover st now).hooh_anim.update_and_draw now cX).2.1 := ⟨_, rfl⟩
    rw [hX]
    exact HorizontalAnimation.update_state_indep _ _ cX cw
  · intro hmp
    simp only [tickMoonProgress] at hmp
    simp only [loopTick]
    rw [if_neg (not_lt.mpr hmp)]
  · intro hmp hact hst2 hfr htd
    simp only [tickMoonProgress] at hmp
    simp only [loopTick]
    rw [if_pos hmp]
    dsimp only
    rw [if_pos ⟨hact, hst2⟩]
    exact HaunterAnimation.started_update _ _ _ hfr htd

/-- Witness for C5: at local midnight (`now = 0`, moon up) with a fresh idle
Haunter animation, the tick auto-starts it. -/
theorem C5_witness :
    (loopTick testCfg noLookup
        (mkInitState [testImg] [testImg] [testImg] [testImg] [testImg] 0)
        testCanvas 0).1.haunter_anim =
      (minuteRollover (mkInitState [testImg] [testImg] [testImg] [testImg] [testImg] 0)
          0).haunter_anim.start 0 :=
  (C5_chain_unconditional_haunter_moon_gated testCfg noLookup
      (mkInitState [testImg] [testImg] [testImg] [testImg] [testImg] 0)
      testCanvas testCanvas 0).2.2
    (by norm_num [tickMoonProgress, sunTimes, noLookup, replaceTime, dateOf, moonWindows,
      moon_progress])
    rfl rfl
    (by norm_num [minuteRollover, mkInitState, HaunterAnimation.init,
      HorizontalAnimation.init, HorizontalAnimation.start])
    (by norm_num [minuteRollover, mkInitState, HaunterAnimation.init,
      HorizontalAnimation.init, HorizontalAnimation.start])

-- Named snapshots of the animation objects along the C5 trace.

/-- Ho-oh running since 66594 (18:29:54 local). -/
def hoohRun66594 : HorizontalAnimation :=
  { frames := [testImg], direction := "left", duration := 5, fps := 6, y_offset := 1,
    start_time := some 66594, active := true, width := 3, height := 3 }

/-- Ho-oh after self-terminating on the 66600 tick. -/
def hoohDone66594 : HorizontalAnimation :=
  { hoohRun66594 with active := false }

/-- Lugia started at 66600. -/
def lugiaRun66600 : HorizontalAnimation :=
  { lugiaIdle with start_time := some 66600, active := true }

/-- The Haunter animation as built at startup: idle. -/
def haunterIdle : HaunterAnimation :=
  { frames := [testImg], slide_duration := 2, hold_duration := 3, total_duration := 7,
    fps := 8, start_time := none, active := false, width := 3, height := 3 }

/-- The loop state `main` builds when started at `t0 = 66594`. -/
def c5Init : LoopState :=
  mkInitState [testImg] [testImg] [testImg] [testImg] [testImg] 66594

/-- State after the first tick at 66594: minute 29 recorded, ho-oh flying,
everything else idle (the moon is not up). -/
def c5StA : LoopState :=
  { prev_minute := some 29, hooh_anim := hoohRun66594, lugia_anim := lugiaIdle,
    trainer_anim := trainerIdle, ray_anim := rayIdle, haunter_anim := haunterIdle,
    cloud_offset := 0, cloud_drift_direction := 1 }

/-- `c5StA` with the recorded minute advanced to 30 by the rollover (ho-oh is
active, so nothing is reset). -/
def c5StAr : LoopState :=
  { prev_minute := some 30, hooh_anim := hoohRun66594, lugia_anim := lugiaIdle,
    trainer_anim := trainerIdle, ray_anim := rayIdle, haunter_anim := haunterIdle,
    cloud_offset := 0, cloud_drift_direction := 1 }

/-- State after the second tick at 66600 (sun progress 0): ho-oh has been
deactivated by its update and lugia started, while the idle Haunter animation
was left untouched. -/
def c5StB : LoopState :=
  { prev_minute := some 30, hooh_anim := hoohDone66594, lugia_anim := lugiaRun66600,
    trainer_anim := trainerIdle, ray_anim := rayIdle, haunter_anim := haunterIdle,
    cloud_offset := 0, cloud_drift_direction := 1 }

set_option maxHeartbeats 1600000 in
theorem c5_tick1 : ∀ cv : Canvas, (loopTick testCfg noLookup c5Init cv 66594).1 = c5StA := by
  intro cv
  norm_num [loopTick, minuteRollover, c5Init, c5StA, mkInitState,
    hoohRun66594, lugiaIdle, trainerIdle, rayIdle, haunterIdle,
    HorizontalAnimation.init, HaunterAnimation.init, HorizontalAnimation.start,
    HaunterAnimation.start, HorizontalAnimation.update_and_draw,
    HaunterAnimation.update_and_draw, sunTimes, noLookup, sun_progress, moon_progress,
    moonWindows, dateOf, minuteOf, replaceTime, testCfg, CLOUDY, testImg]

set_option maxHeartbeats 1600000 in
theorem c5_tick2 : ∀ cv : Canvas, (loopTick testCfg noLookup c5StA cv 66600).1 = c5StB := by
  intro cv
  have hsun : sunTimes noLookup 66600 = (21600, 64800, -21600, 108000) := by
    norm_num [sunTimes, noLookup, replaceTime, dateOf]
  have hsp : sun_progress 66600 21600 64800 = 0 := by norm_num [sun_progress]
  have hmw : moonWindows 66600 21600 64800 (-21600) 108000 =
      (66600, 68400, 106200, 108000) := by
    norm_num [moonWindows]
  have hmp : moon_progress 66600 66600 68400 106200 108000 = 0 := by
    norm_num [moon_progress]
  have hro : minuteRollover c5StA 66600 = c5StAr := by
    norm_num [minuteRollover, c5StA, c5StAr, minuteOf, hoohRun66594]
  have l1 : ∀ c : Canvas, hoohRun66594.update_and_draw 66600 c = (false, hoohDone66594, c) := by
    intro c
    norm_num [HorizontalAnimation.update_and_draw, hoohRun66594, hoohDone66594]
  have l2 : lugiaIdle.start 66600 = lugiaRun66600 := by
    norm_num [HorizontalAnimation.start, lugiaIdle, lugiaRun66600, testImg]
  have l3 : ∀ c : Canvas, (lugiaRun66600.update_and_draw 66600 c).1 = true ∧
      (lugiaRun66600.update_and_draw 66600 c).2.1 = lugiaRun66600 := by
    intro c
    norm_num [HorizontalAnimation.update_and_draw, lugiaRun66600, lugiaIdle]
  have l4 : ∀ (c : Canvas) (t : ℚ), trainerIdle.update_and_draw t c = (false, trainerIdle, c) :=
    fun c t => rfl
  have l5 : ∀ (c : Canvas) (t : ℚ), rayIdle.update_and_draw t c = (false, rayIdle, c) :=
    fun c t => rfl
  have f1 : lugiaIdle.active = false := rfl
  have f2 : lugiaIdle.start_time = none := rfl
  have f3 : hoohDone66594.start_time = some 66594 := rfl
  have f4 : trainerIdle.active = false := rfl
  have f5 : trainerIdle.start_time = none := rfl
  have f6 : rayIdle.active = false := rfl
  have f7 : rayIdle.start_time = none := rfl
  have f8 : lugiaRun66600.start_time = some 66600 := rfl
  have g1 : c5StAr.prev_minute = some 30 := rfl
  have g2 : c5StAr.hooh_anim = hoohRun66594 := rfl
  have g3 : c5StAr.lugia_anim = lugiaIdle := rfl
  have g4 : c5StAr.trainer_anim = trainerIdle := rfl
  have g5 : c5StAr.ray_anim = rayIdle := rfl
  have g6 : c5StAr.haunter_anim = haunterIdle := rfl
  have g7 : c5StAr.cloud_offset = 0 := rfl
  have g8 : c5StAr.cloud_drift_direction = 1 := rfl
  have g9 : c5StA.cloud_offset = 0 := rfl
  have g10 : c5StA.cloud_drift_direction = 1 := rfl
  norm_num [loopTick, hsun, hro, hsp, hmw, hmp,
    l1, l2, (fun c => (l3 c).1), (fun c => (l3 c).2), l4, l5,
    f1, f2, f3, f4, f5, f6, f7, f8,
    g1, g2, g3, g4, g5, g6, g7, g8, g9, g10,
    LoopState.mk.injEq, Option.some_ne_none, Option.isSome_none, reduceCtorEq,
    testCfg, CLOUDY]
  rfl

/-- C5 counterexample: run the loop from 66594 (18:29:54, the sun still
setting) and tick at 66594 and 66600 (18:30:00 sharp, where both sun and moon
progress are exactly 0).  On the 66600 tick the sun progress is 0, yet the
day chain is driven: ho-oh, active before the tick, is deactivated by its
update, and lugia is started on that very tick.  And although sun progress is
not positive, the idle night Haunter animation is NOT driven or started (moon
progress is 0 as well) — refuting both directions of the claim. -/
theorem C5_counterexample :
    sun_progress 66600 21600 64800 = 0 ∧
    sunTimes noLookup 66600 = (21600, 64800, -21600, 108000) ∧
    (runTicks testCfg noLookup (c5Init, testCanvas) [66594]).1.hooh_anim.active = true ∧
    (runTicks testCfg noLookup (c5Init, testCanvas)
        [66594, 66600]).1.hooh_anim.active = false ∧
    (runTicks testCfg noLookup (c5Init, testCanvas)
        [66594, 66600]).1.lugia_anim.start_time = some 66600 ∧
    (runTicks testCfg noLookup (c5Init, testCanvas)
        [66594, 66600]).1.lugia_anim.active = true ∧
    (runTicks testCfg noLookup (c5Init, testCanvas)
        [66594, 66600]).1.haunter_anim.active = false ∧
    (runTicks testCfg noLookup (c5Init, testCanvas)
        [66594, 66600]).1.haunter_anim.start_time = none := by
  have e1 : (runTicks testCfg noLookup (c5Init, testCanvas) [66594]).1 =
      (loopTick testCfg noLookup c5Init testCanvas 66594).1 := rfl
  have e2 : (runTicks testCfg noLookup (c5Init, testCanvas) [66594, 66600]).1 =
      (loopTick testCfg noLookup
        (loopTick testCfg noLookup c5Init testCanvas 66594).1
        (loopTick testCfg noLookup c5Init testCanvas 66594).2 66600).1 := rfl
  have key1 : (runTicks testCfg noLookup (c5Init, testCanvas) [66594]).1 = c5StA := by
    rw [e1, c5_tick1]
  have key2 : (runTicks testCfg noLookup (c5Init, testCanvas) [66594, 66600]).1 = c5StB := by
    rw [e2, c5_tick1 testCanvas, c5_tick2]
  refine ⟨by norm_num [sun_progress], by norm_num [sunTimes, noLookup, replaceTime, dateOf],
    ?_, ?_, ?_, ?_, ?_, ?_⟩
  · rw [key1]
    rfl
  · rw [key2]
    rfl
  · rw [key2]
    rfl
  · rw [key2]
    rfl
  · rw [key2]
    rfl
  · rw [key2]
    rfl
